import Mathlib

/-!
Verification of the ixgbe SR-IOV control plane (src/src/ixgbe_sriov.c).

This file gives a shallow embedding of the VF mailbox protocol engine, the
per-VF policy handlers and the SR-IOV lifecycle controller of the driver
source, and proves the frozen claims about them.

Modelling conventions:
  - Machine integers (u32) are Nat, with explicit masking where the source
    relies on wrapping or field extraction; negative error codes are Int.
  - The per-VF mailbox channel is modelled by the list of messages the PF
    writes back during one processing step (the writes field of MsgResult);
    each message is the list of its 32-bit words.
  - Device registers that the source reads back or that the claims mention
    (MAXFRS, VFRE, VFTE, VMOLR, VMVIR, VMECM, FCTRL, PFDTXGSWC, GCR_EXT,
    GPIE, VT_CTL) are fields of HwState.  Write-only diagnostic registers
    that no code in this file ever reads back (QDE, PVFTXDCTL, PVFTDWBAL/H,
    PFMBMEM, RTTBCNRC/RM, LVMMC) are not part of the state; the claims do
    not mention them.
  - The VLAN filter tables (VFTA / VLVF / VLVFB) are abstracted to their
    semantic content: the set of (pool, vid) memberships, because the
    register-level primitive hw.mac.ops.set_vfta lives in a hardware layer
    that is not part of this repository.
  - External collaborators missing from the repository (mac filter table
    primitives, PCI helpers) are modelled from the spec as oracles passed
    in as arguments; each such definition says so in its doc comment.
  - Compile-time configuration: CONFIG_PCI_IOV is taken as enabled,
    HAVE_VLAN_RX_REGISTER as not defined (modern kernels), FCoE as
    disabled, HAVE_NDO_SET_VF_RSS_QUERY_EN and HAVE_NDO_SET_VF_TRUST as
    defined, HAVE_XDP_SUPPORT as defined.
-/

/-! Constants.  Mailbox opcodes, message type flags and driver limits.
The headers ixgbe_mbx.h / ixgbe_type.h are not part of this repository;
the numeric values below are modelled from the spec (section 4.2 lists the
opcodes, section 6 the wire format: header low 16 bits = opcode, upper
bits for ack/success/failure/CTS flags and a count/info field).  Only
their distinctness and bit positions matter to the proofs. -/

def IXGBE_VF_RESET : Nat := 0x01

def IXGBE_VF_SET_MAC_ADDR : Nat := 0x02

def IXGBE_VF_SET_MULTICAST : Nat := 0x03

def IXGBE_VF_SET_VLAN : Nat := 0x04

def IXGBE_VF_SET_LPE : Nat := 0x05

def IXGBE_VF_SET_MACVLAN : Nat := 0x06

def IXGBE_VF_API_NEGOTIATE : Nat := 0x08

def IXGBE_VF_GET_QUEUES : Nat := 0x09

def IXGBE_VF_GET_RETA : Nat := 0x0a

def IXGBE_VF_GET_RSS_KEY : Nat := 0x0b

def IXGBE_VF_UPDATE_XCAST_MODE : Nat := 0x0c

def IXGBE_VF_GET_LINK_STATE : Nat := 0x10

def IXGBE_VT_MSGTYPE_SUCCESS : Nat := 0x80000000

def IXGBE_VT_MSGTYPE_FAILURE : Nat := 0x40000000

def IXGBE_VT_MSGTYPE_CTS : Nat := 0x20000000

def IXGBE_VT_MSGINFO_SHIFT : Nat := 16

def IXGBE_VT_MSGINFO_MASK : Nat := 0xFF0000

def IXGBE_PF_CONTROL_MSG : Nat := 0x0100

def IXGBE_VFMAILBOX_SIZE : Nat := 16

def IXGBE_VF_PERMADDR_MSG_LEN : Nat := 4

/-- Mailbox API version numbers, modelled from the spec: the enum
ixgbe_pfvf_api_rev of the missing header ixgbe_mbx.h, in declaration
order.  The code only compares them for equality.  api 1.0 is the
UNKNOWN / base level a VF is reset to. -/
def ixgbe_mbox_api_10 : Nat := 0

def ixgbe_mbox_api_20 : Nat := 1

def ixgbe_mbox_api_11 : Nat := 2

def ixgbe_mbox_api_12 : Nat := 3

def ixgbe_mbox_api_13 : Nat := 4

/-- Hardware generations, modelled from the spec: the enum ixgbe_mac_type
of the missing header, in generation order (82598 < 82599 < X540 < X550);
the code compares them by this order. -/
def ixgbe_mac_82598EB : Nat := 1

def ixgbe_mac_82599EB : Nat := 2

def ixgbe_mac_X540 : Nat := 3

def ixgbe_mac_X550 : Nat := 4

/-- Xcast modes, modelled from the spec enum {NONE, MULTI, ALLMULTI,
PROMISC} in that order; the code compares them by this order. -/
def IXGBEVF_XCAST_MODE_NONE : Nat := 0

def IXGBEVF_XCAST_MODE_MULTI : Nat := 1

def IXGBEVF_XCAST_MODE_ALLMULTI : Nat := 2

def IXGBEVF_XCAST_MODE_PROMISC : Nat := 3

/-! Linux error numbers (returned negated) and driver error codes. -/

def EPERM : Int := 1

def ENOMEM : Int := 12

def EINVAL : Int := 22

def ENOSPC : Int := 28

def EOPNOTSUPP : Int := 95

def IXGBE_ERR_MBX : Int := -100

/-! Frame size and table size constants (values from the source comments
and the common Ethernet definitions the source includes). -/

def ETH_ALEN : Nat := 6

def ETH_HLEN : Nat := 14

def ETH_FRAME_LEN : Nat := 1514

def ETH_FCS_LEN : Nat := 4

def IXGBE_MAX_JUMBO_FRAME_SIZE : Nat := 9728

def IXGBE_MAX_VF_MC_ENTRIES : Nat := 30

def IXGBE_MAX_PF_MACVLANS : Nat := 15

/-- VF count caps.  The source comment at ixgbe_pci_sriov_enable documents
the table: 1 TC allows 63 VFs, up to 4 TCs allow 31, more than 4 allow 15;
IXGBE_MAX_VFS_DRV_LIMIT = 63 is documented at ixgbe_enable_sriov. -/
def IXGBE_MAX_VFS_DRV_LIMIT : Nat := 63

def IXGBE_MAX_VFS_1TC : Nat := 63

def IXGBE_MAX_VFS_4TC : Nat := 31

def IXGBE_MAX_VFS_8TC : Nat := 15

def IXGBE_VLVF_VLANID_MASK : Nat := 0xFFF

def VLAN_VID_MASK : Nat := 0xFFF

def VLAN_PRIO_SHIFT : Nat := 13

def IXGBE_VMVIR_VLANA_DEFAULT : Nat := 0x40000000

/-! VMOLR register bits (receive filtering controls per VF) and other
register bits, modelled from the spec glossary of the register layer. -/

def IXGBE_VMOLR_AUPE : Nat := 0x01000000

def IXGBE_VMOLR_ROMPE : Nat := 0x02000000

def IXGBE_VMOLR_BAM : Nat := 0x08000000

def IXGBE_VMOLR_MPE : Nat := 0x10000000

def IXGBE_VMOLR_UPE : Nat := 0x00400000

def IXGBE_VMOLR_VPE : Nat := 0x00800000

def IXGBE_FCTRL_UPE : Nat := 0x00000200

def IXGBE_MHADD_MFS_SHIFT : Nat := 16

def IXGBE_MHADD_MFS_MASK : Nat := 0xFFFF0000

def IXGBE_PFDTXGSWC_VT_LBEN : Nat := 0x1

def IXGBE_GPIE_VTMODE_MASK : Nat := 0x0000C000

def IXGBE_VT_CTL_POOL_MASK : Nat := 0x3F <<< 7

def IXGBE_RSS_KEY_SIZE : Nat := 40

/-- ALIGN_MASK from the kernel: round x up to the complement of mask,
in 32-bit arithmetic.  The source uses ALIGN_MASK(1, mask-complement) to
derive queues per pool from the VMDq mask. -/
def align_mask (x m : Nat) : Nat := (x + m) &&& (0xFFFFFFFF ^^^ m)

/-- The all-zero Ethernet address (6 bytes). -/
def zeroMac : List Nat := [0, 0, 0, 0, 0, 0]

/-- is_zero_ether_addr from the kernel: all six bytes zero. -/
def is_zero_ether_addr (mac : List Nat) : Bool := mac = zeroMac

/-- is_multicast_ether_addr from the kernel: lowest bit of first byte. -/
def is_multicast_ether_addr (mac : List Nat) : Bool :=
  (mac.getD 0 0) &&& 1 = 1

/-- is_valid_ether_addr from the kernel: not multicast and not zero. -/
def is_valid_ether_addr (mac : List Nat) : Bool :=
  !is_multicast_ether_addr mac && !is_zero_ether_addr mac

/-- Per-VF state record: struct vf_data_storage of ixgbe.h, restricted to
the fields ixgbe_sriov.c reads or writes. -/
structure VfInfo where
  vf_mac_addresses : List Nat
  pf_set_mac : Bool
  trusted : Bool
  pf_vlan : Nat
  pf_qos : Nat
  num_vf_mc_hashes : Nat
  vf_mc_hashes : List Nat
  xcast_mode : Nat
  vf_api : Nat
  clear_to_send : Bool
  spoofchk_enabled : Bool
  rss_query_enabled : Bool
  link_enable : Bool
  link_state : Nat
  tx_rate : Nat
  vfdev_held : Bool
  deriving Repr, DecidableEq
/-- Default-initialized VfInfo (kcalloc zeroes the table). -/
def VfInfo.zeroed : VfInfo :=
  { vf_mac_addresses := zeroMac
    pf_set_mac := false
    trusted := false
    pf_vlan := 0
    pf_qos := 0
    num_vf_mc_hashes := 0
    vf_mc_hashes := []
    xcast_mode := 0
    vf_api := 0
    clear_to_send := false
    spoofchk_enabled := false
    rss_query_enabled := false
    link_enable := false
    link_state := 0
    tx_rate := 0
    vfdev_held := false }

/-- One entry of the shared VF macvlan slot pool (struct vf_macvlans). -/
structure VfMacvlan where
  vf : Int
  free : Bool
  is_macvlan : Bool
  vf_macvlan : List Nat
  deriving Repr, DecidableEq
/-- Hardware register state, restricted to registers the embedded code
reads back or the claims mention.  vlan_filters abstracts the
VFTA / VLVF / VLVFB tables to the set of (pool, vid) memberships. -/
structure HwState where
  mac_type : Nat
  num_rar_entries : Nat
  mc_filter_type : Nat
  maxfrs : Nat
  fctrl : Nat
  vfre : List Nat
  vfte : List Nat
  vmolr : List Nat
  vmvir : List Nat
  vmecm : List Nat
  pfdtxgswc : Nat
  gcr_ext : Nat
  gpie : Nat
  vt_ctl : Nat
  has_mdd_ops : Bool
  mdd_active : Bool
  vlan_filters : List (Nat × Nat)
  deriving Repr, DecidableEq
/-- Adapter state: struct ixgbe_adapter restricted to what
ixgbe_sriov.c uses.  vfinfo = none models a freed (NULL) table and
mv_list = none a freed macvlan pool. -/
structure Adapter where
  num_vfs : Nat
  vfinfo : Option (List VfInfo)
  mv_list : Option (List VfMacvlan)
  flags_sriov_enabled : Bool
  flags_sriov_capable : Bool
  flags_vmdq_enabled : Bool
  flags_mdd_enabled : Bool
  flags_l2switch_enable : Bool
  flags_replication_enable : Bool
  flags2_rsc_capable : Bool
  flags2_rsc_enabled : Bool
  flags2_vlan_promisc : Bool
  vmdq_limit : Nat
  vmdq_offset : Nat
  vmdq_mask : Nat
  dcb_pg_tcs : Nat
  dcb_pfc_tcs : Nat
  dcb_vt_mode : Bool
  netdev_mtu : Nat
  num_tcs : Nat
  active_vlans : List Nat
  default_up : Nat
  rss_key : List Nat
  rss_indir_tbl : List Nat
  xdp_prog : Bool
  hw : HwState
  deriving Repr, DecidableEq
/-- Read the VfInfo record of a VF (C array indexing; the source always
guards the index by num_vfs, a missing table or index yields the zeroed
record the way kcalloc would have produced it). -/
def Adapter.getVf (a : Adapter) (vf : Nat) : VfInfo :=
  (a.vfinfo.getD []).getD vf VfInfo.zeroed

/-- Write back the VfInfo record of a VF. -/
def Adapter.setVf (a : Adapter) (vf : Nat) (v : VfInfo) : Adapter :=
  { a with vfinfo := a.vfinfo.map (fun l => l.set vf v) }

/-- Read a per-VF 32-bit register array entry (VMOLR style, index vf). -/
def regGet (l : List Nat) (i : Nat) : Nat := l.getD i 0

/-- Write a per-VF 32-bit register array entry. -/
def regSet (l : List Nat) (i v : Nat) : List Nat := l.set i v

/-- VLAN filter membership: does pool p hold vid in the shared table. -/
def vlanMember (filters : List (Nat × Nat)) (p vid : Nat) : Bool :=
  filters.contains (p, vid)

/-- Modelled from the spec: hw.mac.ops.set_vfta of the missing register
layer adds or removes pool membership of a VLAN id in the shared
VFTA / VLVF tables (spec section 2, Register/Filter Backend).  The
hardware primitive is assumed to succeed (spec section 6: register
access is synchronous and assumed to always succeed). -/
def set_vfta (filters : List (Nat × Nat)) (vid p : Nat) (add : Bool) :
    List (Nat × Nat) × Int :=
  ((if add then
      (if filters.contains (p, vid) then filters else (p, vid) :: filters)
    else filters.filter (fun e => e ≠ (p, vid))), 0)

/-- VMDQ_P(0): the pool index the PF itself uses.  With SR-IOV enabled the
PF pool sits right after the VFs (ring_feature VMDQ offset). -/
def Adapter.pfPool (a : Adapter) : Nat := a.vmdq_offset

/-- The VLAN ids a given pool holds in the shared filter table. -/
def poolVlans (filters : List (Nat × Nat)) (p : Nat) : List Nat :=
  (filters.filter (fun e => e.1 = p)).map (fun e => e.2)

/-! Small bit and message helpers. -/

/-- Clear the bits of b in the 32-bit word w. -/
def bitClear (w b : Nat) : Nat := w &&& (0xFFFFFFFF ^^^ b)

/-- Extract the 6 MAC bytes stored at byte offset 0 of message word 1
(the C code reads u8 pointers into the u32 message buffer,
little-endian). -/
def macFromMsg (msg : List Nat) : List Nat :=
  let w1 := msg.getD 1 0
  let w2 := msg.getD 2 0
  [w1 &&& 0xFF, (w1 >>> 8) &&& 0xFF, (w1 >>> 16) &&& 0xFF,
   (w1 >>> 24) &&& 0xFF, w2 &&& 0xFF, (w2 >>> 8) &&& 0xFF]

/-- First message word holding MAC bytes 0..3 (little-endian). -/
def macWord1 (mac : List Nat) : Nat :=
  (mac.getD 0 0) ||| ((mac.getD 1 0) <<< 8) |||
  ((mac.getD 2 0) <<< 16) ||| ((mac.getD 3 0) <<< 24)

/-- Second message word holding MAC bytes 4..5 (little-endian). -/
def macWord2 (mac : List Nat) : Nat :=
  (mac.getD 4 0) ||| ((mac.getD 5 0) <<< 8)

/-- Extract the i-th u16 multicast hash from the message payload (the C
code reads a u16 pointer into msgbuf[1], little-endian). -/
def msgHash16 (msg : List Nat) (i : Nat) : Nat :=
  ((msg.getD (1 + i / 2) 0) >>> (16 * (i % 2))) &&& 0xFFFF

/-! Policy engine operations, embedded from ixgbe_sriov.c. -/

/-- ixgbe_set_vf_multicasts: store the (capacity-truncated) hash list in
the VF record, set ROMPE in the VF's VMOLR, resynchronize the shared MTA
(ixgbe_write_mc_addr_list, an external netdev operation recomputing the
shared multicast table from all records; the MTA itself is not state of
this embedding).  Always returns 0. -/
def ixgbe_set_vf_multicasts (a : Adapter) (msg : List Nat) (vf : Nat) :
    Adapter × Int :=
  let entries := ((msg.getD 0 0) &&& IXGBE_VT_MSGINFO_MASK) >>>
                 IXGBE_VT_MSGINFO_SHIFT
  let entries := min entries IXGBE_MAX_VF_MC_ENTRIES
  let vfi := a.getVf vf
  let vfi := { vfi with
               num_vf_mc_hashes := entries
               vf_mc_hashes := (List.range entries).map (msgHash16 msg) }
  let a := a.setVf vf vfi
  let vmolr := regGet a.hw.vmolr vf ||| IXGBE_VMOLR_ROMPE
  ({ a with hw := { a.hw with vmolr := regSet a.hw.vmolr vf vmolr } }, 0)

/-- Modelled from the spec: ixgbe_update_pf_promisc_vlvf lives in the main
driver file, which is not part of this repository.  Spec section 4.3: when
a VF VLAN is dropped, the PF's passive entry for that VLAN is revoked only
if the PF held it solely because it was in promiscuous mode and no other
pool still references it; an admin-configured VLAN (active_vlans) is never
removed. -/
def ixgbe_update_pf_promisc_vlvf (a : Adapter) (vid : Nat) : Adapter :=
  if a.flags2_vlan_promisc && !(a.active_vlans.contains vid) &&
     (a.hw.vlan_filters.filter
       (fun e => e.2 = vid && e.1 ≠ a.pfPool)).isEmpty then
    { a with hw := { a.hw with
        vlan_filters :=
          a.hw.vlan_filters.filter (fun e => e ≠ (a.pfPool, vid)) } }
  else a

/-- ixgbe_set_vf_vlan: add or remove a pool's VLAN membership.  With the
modern configuration (HAVE_VLAN_RX_REGISTER undefined) an add of a VLAN
the PF monitors first secures the PF pool's own entry, and on a remove (or
failed add) the PF's promiscuity-only entry may be dropped.  The backend
set_vfta is assumed to succeed, so the error short-circuits of the source
are carried along with err = 0. -/
def ixgbe_set_vf_vlan (a : Adapter) (add : Bool) (vid vf : Nat) :
    Adapter × Int :=
  let f0 :=
    if add && a.active_vlans.contains vid then
      (set_vfta a.hw.vlan_filters vid a.pfPool true).1
    else a.hw.vlan_filters
  let r := set_vfta f0 vid vf add
  let err := r.2
  let a := { a with hw := { a.hw with vlan_filters := r.1 } }
  if add && err = 0 then (a, err)
  else if a.active_vlans.contains vid || a.flags2_vlan_promisc then
    (ixgbe_update_pf_promisc_vlvf a vid, err)
  else (a, err)

/-- ixgbe_set_vf_lpe: on 82599 decide whether the VF may receive at all
(jumbo PF with legacy VF shuts the VF receive path down and fails), then
raise the device-wide MAXFRS maximum frame size if the request exceeds it.
The maxfrs field of HwState models the MFS field of the register in frame
bytes (the source shifts it down after reading and up before writing). -/
def ixgbe_set_vf_lpe (a : Adapter) (max_frame vf : Nat) : Adapter × Int :=
  let step :=
    if a.hw.mac_type = ixgbe_mac_82599EB then
      let pf_max_frame := a.netdev_mtu + ETH_HLEN
      let api := (a.getVf vf).vf_api
      let err : Int :=
        if (api = ixgbe_mbox_api_11 ∨ api = ixgbe_mbox_api_12 ∨
            api = ixgbe_mbox_api_13) ∧ pf_max_frame > ETH_FRAME_LEN then 0
        else if pf_max_frame > ETH_FRAME_LEN ∨
                max_frame > ETH_FRAME_LEN + ETH_FCS_LEN then -EINVAL
        else 0
      let vf_shift := vf % 32
      let reg_offset := vf / 32
      let vfre := regGet a.hw.vfre reg_offset
      let vfre := if err ≠ 0 then bitClear vfre (1 <<< vf_shift)
                  else vfre ||| (1 <<< vf_shift)
      let a := { a with hw :=
                 { a.hw with vfre := regSet a.hw.vfre reg_offset vfre } }
      (a, err)
    else (a, 0)
  let a := step.1
  if step.2 ≠ 0 then (a, step.2)
  else
    let max_frs := a.hw.maxfrs
    if max_frs < max_frame then
      ({ a with hw := { a.hw with maxfrs := max_frame } }, 0)
    else (a, 0)

/-- ixgbe_set_vmolr: set BAM and set or clear AUPE in the VF's VMOLR. -/
def ixgbe_set_vmolr (a : Adapter) (vf : Nat) (aupe : Bool) : Adapter :=
  let vmolr := regGet a.hw.vmolr vf ||| IXGBE_VMOLR_BAM
  let vmolr := if aupe then vmolr ||| IXGBE_VMOLR_AUPE
               else bitClear vmolr IXGBE_VMOLR_AUPE
  { a with hw := { a.hw with vmolr := regSet a.hw.vmolr vf vmolr } }

/-- ixgbe_set_vmvir: program the VF's default VLAN tag insertion. -/
def ixgbe_set_vmvir (a : Adapter) (vid qos vf : Nat) : Adapter :=
  let vmvir := vid ||| (qos <<< VLAN_PRIO_SHIFT) ||| IXGBE_VMVIR_VLANA_DEFAULT
  { a with hw := { a.hw with vmvir := regSet a.hw.vmvir vf vmvir } }

/-- ixgbe_clear_vmvir: clear the VF's default VLAN tag insertion. -/
def ixgbe_clear_vmvir (a : Adapter) (vf : Nat) : Adapter :=
  { a with hw := { a.hw with vmvir := regSet a.hw.vmvir vf 0 } }

/-- ixgbe_clear_vf_vlans: drop every VLAN filter membership of the VF's
pool.  At the (pool, vid) membership abstraction this removes exactly the
VF's own pool bits; the source's VLVF-slot and VFTA bookkeeping (freeing a
slot once no pool references it, keeping the PF's view) lives below this
abstraction in the shared-table representation. -/
def ixgbe_clear_vf_vlans (a : Adapter) (vf : Nat) : Adapter :=
  { a with hw := { a.hw with
      vlan_filters := a.hw.vlan_filters.filter (fun e => e.1 ≠ vf) } }

/-- Modelled from the spec: ixgbe_add_mac_filter of the main driver file
(Register/Filter Backend, spec section 6) returns the allocated slot
index, or a negative error (for instance when the table is full).  The
embedding takes its result as the oracle argument addRet; the filter
table itself is owned by the backend and is not state of this file. -/
def ixgbe_add_mac_filter (addRet : Int) : Int := addRet

/-- ixgbe_set_vf_mac: drop the old filter, install the new one through
the backend, and on success store the new address in the VF record; on
backend failure the record is zeroed.  addRet is the backend result for
the ixgbe_add_mac_filter call. -/
def ixgbe_set_vf_mac (a : Adapter) (vf : Nat) (mac : List Nat)
    (addRet : Int) : Adapter × Int :=
  let retval := ixgbe_add_mac_filter addRet
  let vfi := a.getVf vf
  let vfi := if retval ≥ 0 then { vfi with vf_mac_addresses := mac }
             else { vfi with vf_mac_addresses := zeroMac }
  (a.setVf vf vfi, retval)

/-- Release every macvlan slot owned by the VF back to the free list. -/
def clearVfMacvlanSlots (l : List VfMacvlan) (vf : Nat) : List VfMacvlan :=
  l.map (fun e =>
    if e.vf = (vf : Int) then
      { e with vf := -1, free := true, is_macvlan := false }
    else e)

/-- Claim the first free slot of the pool for the VF, storing mac. -/
def allocVfMacvlanSlot (l : List VfMacvlan) (vf : Nat) (mac : List Nat) :
    Option (List VfMacvlan) :=
  match l with
  | [] => none
  | e :: rest =>
    if e.free then
      some ({ e with vf := (vf : Int), free := false, is_macvlan := true,
                     vf_macvlan := mac } :: rest)
    else (allocVfMacvlanSlot rest vf mac).map (e :: ·)

/-- ixgbe_set_vf_macvlan: index 0 or 1 first clears all of the VF's
secondary unicast slots; index 0 then stops.  A nonzero index claims a
free slot, failing with -ENOSPC when none exists (or the pool allocation
failed at enable time), after installing the backend filter (oracle
addRet). -/
def ixgbe_set_vf_macvlan (a : Adapter) (vf index : Nat) (mac : List Nat)
    (addRet : Int) : Adapter × Int :=
  let a := if index ≤ 1 then
             { a with mv_list := a.mv_list.map (clearVfMacvlanSlots · vf) }
           else a
  if index = 0 then (a, 0)
  else
    match a.mv_list with
    | none => (a, -ENOSPC)
    | some l =>
      match allocVfMacvlanSlot l vf mac with
      | none => (a, -ENOSPC)
      | some l2 =>
        let retval := ixgbe_add_mac_filter addRet
        if retval < 0 then (a, retval)
        else ({ a with mv_list := some l2 }, 0)

/-- ixgbe_vf_reset_event: clear the VF's VLAN filters, re-add the
PF-assigned VLAN (or VLAN 0), reset offloads, tag insertion and the
multicast list, drop the VF's MAC filter and secondary unicast slots, and
reset the negotiated mailbox API to the base 1.0 level.  The X550 queue
toggling and mailbox memory wipe touch only write-only registers outside
this state. -/
def ixgbe_vf_reset_event (a : Adapter) (vf : Nat) : Adapter :=
  let vfi0 := a.getVf vf
  let num_tcs := a.num_tcs
  let a := ixgbe_clear_vf_vlans a vf
  let a := (ixgbe_set_vf_vlan a true vfi0.pf_vlan vf).1
  let a := ixgbe_set_vmolr a vf (vfi0.pf_vlan = 0)
  let a :=
    if vfi0.pf_vlan = 0 ∧ vfi0.pf_qos = 0 ∧ num_tcs = 0 then
      ixgbe_clear_vmvir a vf
    else if vfi0.pf_qos ≠ 0 ∨ num_tcs = 0 then
      ixgbe_set_vmvir a vfi0.pf_vlan vfi0.pf_qos vf
    else
      ixgbe_set_vmvir a vfi0.pf_vlan a.default_up vf
  let a := a.setVf vf { a.getVf vf with num_vf_mc_hashes := 0 }
  let a := (ixgbe_set_vf_macvlan a vf 0 [] 0).1
  a.setVf vf { a.getVf vf with vf_api := ixgbe_mbox_api_10 }

/-- ixgbe_set_vf_rx_tx: set or clear the VF's transmit and receive enable
bits according to its administrative link_enable, except that on 82599
with a jumbo PF frame the receive bit is forced off. -/
def ixgbe_set_vf_rx_tx (a : Adapter) (vf : Nat) : Adapter :=
  let vf_shift := vf % 32
  let reg_offset := vf / 32
  let reg_cur_tx := regGet a.hw.vfte reg_offset
  let reg_cur_rx := regGet a.hw.vfre reg_offset
  let reg_req_tx :=
    if (a.getVf vf).link_enable then reg_cur_tx ||| (1 <<< vf_shift)
    else bitClear reg_cur_tx (1 <<< vf_shift)
  let reg_req_rx :=
    if (a.getVf vf).link_enable then reg_cur_rx ||| (1 <<< vf_shift)
    else bitClear reg_cur_rx (1 <<< vf_shift)
  let reg_req_rx :=
    if a.hw.mac_type = ixgbe_mac_82599EB ∧
       a.netdev_mtu + ETH_HLEN > ETH_FRAME_LEN then
      bitClear reg_cur_rx (1 <<< vf_shift)
    else reg_req_rx
  let hw := if reg_cur_tx ≠ reg_req_tx then
              { a.hw with vfte := regSet a.hw.vfte reg_offset reg_req_tx }
            else a.hw
  let hw := if reg_cur_rx ≠ reg_req_rx then
              { hw with vfre := regSet hw.vfre reg_offset reg_req_rx }
            else hw
  { a with hw := hw }

/-- Helper naming the VMECM read-modify-write of ixgbe_vf_reset_msg (the
register enabling mailbox interrupts for the VF). -/
def vmecm_enable (a : Adapter) (vf : Nat) : Adapter :=
  { a with hw := { a.hw with
      vmecm := regSet a.hw.vmecm (vf / 32)
        (regGet a.hw.vmecm (vf / 32) ||| (1 <<< (vf % 32))) } }

/-- ixgbe_vf_reset_msg: run the reset event, re-install the stored MAC
filter if one is set (backend oracle addRet), re-enable the VF queues,
open the clear_to_send gate, and reply with the RESET opcode tagged
SUCCESS plus the MAC (when one is present and was pinned by the PF) or
FAILURE, piggybacking the multicast filter type in word 3.  Returns the
new state, the mailbox reply written, and the 0 return value. -/
def ixgbe_vf_reset_msg (a : Adapter) (vf : Nat) (addRet : Int) :
    Adapter × List Nat × Int :=
  let a := ixgbe_vf_reset_event a vf
  let vf_mac := (a.getVf vf).vf_mac_addresses
  let a := if !is_zero_ether_addr vf_mac then
             (ixgbe_set_vf_mac a vf vf_mac addRet).1
           else a
  let a := ixgbe_set_vf_rx_tx a vf
  let a := a.setVf vf { a.getVf vf with clear_to_send := true }
  let a := vmecm_enable a vf
  let vf_mac2 := (a.getVf vf).vf_mac_addresses
  let reply :=
    if !is_zero_ether_addr vf_mac2 ∧ (a.getVf vf).pf_set_mac then
      [IXGBE_VF_RESET ||| IXGBE_VT_MSGTYPE_SUCCESS,
       macWord1 vf_mac2, macWord2 vf_mac2, a.hw.mc_filter_type]
    else
      [IXGBE_VF_RESET ||| IXGBE_VT_MSGTYPE_FAILURE, 0, 0,
       a.hw.mc_filter_type]
  (a, reply, 0)

/-! Mailbox message handlers (per-opcode policy operations). -/

/-- Message word indices of the GET_QUEUES reply, modelled from the spec
wire format (missing header ixgbe_mbx.h). -/
def IXGBE_VF_TX_QUEUES : Nat := 1

def IXGBE_VF_RX_QUEUES : Nat := 2

def IXGBE_VF_TRANS_VLAN : Nat := 3

def IXGBE_VF_DEF_QUEUE : Nat := 4

/-- ixgbe_set_vf_mac_addr: a VF request to change its own MAC.  Rejects a
malformed address, and rejects (result -1, record untouched) a request
that differs from a PF-pinned address when the VF is not trusted;
otherwise delegates to ixgbe_set_vf_mac (backend oracle addRet) and maps
a negative backend result to 1. -/
def ixgbe_set_vf_mac_addr (a : Adapter) (msg : List Nat) (vf : Nat)
    (addRet : Int) : Adapter × Int :=
  let new_mac := macFromMsg msg
  if !is_valid_ether_addr new_mac then (a, -1)
  else if (a.getVf vf).pf_set_mac ∧ ¬(a.getVf vf).trusted ∧
          new_mac ≠ (a.getVf vf).vf_mac_addresses then
    (a, -1)
  else
    let r := ixgbe_set_vf_mac a vf new_mac addRet
    (r.1, if r.2 < 0 then 1 else 0)

/-- ixgbe_set_vf_vlan_msg: a VF request to add or remove a VLAN filter.
Rejected outright when the PF pinned a port VLAN or traffic classes are
active; removing VLAN 0 is accepted as a no-op; otherwise delegates to
ixgbe_set_vf_vlan.  (The promiscuous-mode PF-pool bookkeeping of the
HAVE_VLAN_RX_REGISTER configuration is compiled out.) -/
def ixgbe_set_vf_vlan_msg (a : Adapter) (msg : List Nat) (vf : Nat) :
    Adapter × Int :=
  let add := ((msg.getD 0 0) &&& IXGBE_VT_MSGINFO_MASK) >>>
             IXGBE_VT_MSGINFO_SHIFT
  let vid := (msg.getD 1 0) &&& IXGBE_VLVF_VLANID_MASK
  let tcs := a.num_tcs
  if (a.getVf vf).pf_vlan ≠ 0 ∨ tcs ≠ 0 then (a, -1)
  else if vid = 0 ∧ add = 0 then (a, 0)
  else ixgbe_set_vf_vlan a (add ≠ 0) vid vf

/-- ixgbe_set_vf_macvlan_msg: a VF request for a secondary unicast
filter.  Administratively denied for an untrusted VF with a PF-pinned MAC
and a nonzero index; a nonzero index requires a valid address and turns
off anti-spoofing for the VF (the anti-spoof registers belong to the
external hardware layer and are not state here); then delegates to
ixgbe_set_vf_macvlan (backend oracle addRet), mapping negative to 1. -/
def ixgbe_set_vf_macvlan_msg (a : Adapter) (msg : List Nat) (vf : Nat)
    (addRet : Int) : Adapter × Int :=
  let new_mac := macFromMsg msg
  let index := ((msg.getD 0 0) &&& IXGBE_VT_MSGINFO_MASK) >>>
               IXGBE_VT_MSGINFO_SHIFT
  if (a.getVf vf).pf_set_mac ∧ ¬(a.getVf vf).trusted ∧ index > 0 then
    (a, -1)
  else if index ≠ 0 ∧ !is_valid_ether_addr new_mac then (a, -1)
  else
    let r := ixgbe_set_vf_macvlan a vf index new_mac addRet
    (r.1, if r.2 < 0 then 1 else 0)

/-- ixgbe_negotiate_vf_api: record a supported requested API version
(1.0 to 1.3; 2.0 is not accepted) and succeed, else fail with -1 and
leave the negotiated version unchanged. -/
def ixgbe_negotiate_vf_api (a : Adapter) (msg : List Nat) (vf : Nat) :
    Adapter × Int :=
  let api := msg.getD 1 0
  if api = ixgbe_mbox_api_10 ∨ api = ixgbe_mbox_api_11 ∨
     api = ixgbe_mbox_api_12 ∨ api = ixgbe_mbox_api_13 then
    (a.setVf vf { a.getVf vf with vf_api := api }, 0)
  else (a, -1)

/-- ixgbe_get_vf_queues: report queue counts, VLAN transparency and the
default queue to a VF that negotiated a sufficient API version. -/
def ixgbe_get_vf_queues (a : Adapter) (msg : List Nat) (vf : Nat) :
    Adapter × List Nat × Int :=
  let api := (a.getVf vf).vf_api
  if ¬(api = ixgbe_mbox_api_20 ∨ api = ixgbe_mbox_api_11 ∨
       api = ixgbe_mbox_api_12 ∨ api = ixgbe_mbox_api_13) then
    (a, msg, -1)
  else
    let q_per_pool := align_mask 1 (0xFFFFFFFF ^^^ a.vmdq_mask)
    let num_tcs := a.num_tcs
    let default_tc := if num_tcs > 1 then a.default_up else 0
    let msg := (msg.set IXGBE_VF_TX_QUEUES q_per_pool).set
               IXGBE_VF_RX_QUEUES q_per_pool
    let trans_vlan :=
      if num_tcs ≠ 0 then num_tcs
      else if (a.getVf vf).pf_vlan ≠ 0 ∨ (a.getVf vf).pf_qos ≠ 0 then 1
      else 0
    let msg := (msg.set IXGBE_VF_TRANS_VLAN trans_vlan).set
               IXGBE_VF_DEF_QUEUE default_tc
    (a, msg, 0)

/-- Modelled from the spec: ixgbe_rss_indir_tbl_entries of the main
driver file.  RSS querying is supported only for 82599 and X540, whose
redirection table has 128 entries (the source compresses it 2 bits per
entry into 8 message words). -/
def ixgbe_rss_indir_tbl_entries : Nat := 128

/-- ixgbe_get_vf_reta: return the RSS redirection table, compressed two
bits per entry, to a VF that is allowed to query it. -/
def ixgbe_get_vf_reta (a : Adapter) (msg : List Nat) (vf : Nat) :
    Adapter × List Nat × Int :=
  if ¬(a.getVf vf).rss_query_enabled then (a, msg, -EPERM)
  else if ¬((a.getVf vf).vf_api = ixgbe_mbox_api_12 ∨
            (a.getVf vf).vf_api = ixgbe_mbox_api_13) then
    (a, msg, -EOPNOTSUPP)
  else
    let word (i : Nat) : Nat :=
      (List.range 16).foldl
        (fun w j => w ||| (((a.rss_indir_tbl.getD (16 * i + j) 0) &&& 0x3)
                           <<< (2 * j))) 0
    let msg := (List.range (ixgbe_rss_indir_tbl_entries / 16)).foldl
               (fun m i => m.set (1 + i) (word i)) msg
    (a, msg, 0)

/-- ixgbe_get_vf_rss_key: return the 40-byte RSS key (10 words) to a VF
that is allowed to query it. -/
def ixgbe_get_vf_rss_key (a : Adapter) (msg : List Nat) (vf : Nat) :
    Adapter × List Nat × Int :=
  if ¬(a.getVf vf).rss_query_enabled then (a, msg, -EPERM)
  else if ¬((a.getVf vf).vf_api = ixgbe_mbox_api_12 ∨
            (a.getVf vf).vf_api = ixgbe_mbox_api_13) then
    (a, msg, -EOPNOTSUPP)
  else
    let msg := (List.range (IXGBE_RSS_KEY_SIZE / 4)).foldl
               (fun m i => m.set (1 + i) (a.rss_key.getD i 0)) msg
    (a, msg, 0)

/-- ixgbe_update_vf_xcast_mode: negotiate the VF's receive filtering
breadth.  Requires api 1.2 (1.3 for PROMISC); an untrusted VF is silently
capped at MULTI; PROMISC further requires post-82599 hardware and the PF
itself in unicast promiscuous mode (FCTRL.UPE), and a request equal to
the current mode short-circuits to success.  On success the granted mode
is echoed in message word 1. -/
def ixgbe_update_vf_xcast_mode (a : Adapter) (msg : List Nat) (vf : Nat) :
    Adapter × List Nat × Int :=
  let xcast_mode := msg.getD 1 0
  let api := (a.getVf vf).vf_api
  if api = ixgbe_mbox_api_12 ∧ xcast_mode = IXGBEVF_XCAST_MODE_PROMISC then
    (a, msg, -EOPNOTSUPP)
  else if ¬(api = ixgbe_mbox_api_12 ∨ api = ixgbe_mbox_api_13) then
    (a, msg, -EOPNOTSUPP)
  else
    let xcast_mode :=
      if xcast_mode > IXGBEVF_XCAST_MODE_MULTI ∧ ¬(a.getVf vf).trusted then
        IXGBEVF_XCAST_MODE_MULTI
      else xcast_mode
    if (a.getVf vf).xcast_mode = xcast_mode then
      (a, msg.set 1 xcast_mode, 0)
    else if xcast_mode = IXGBEVF_XCAST_MODE_NONE then
      let disable := IXGBE_VMOLR_BAM ||| IXGBE_VMOLR_ROMPE |||
                     IXGBE_VMOLR_MPE ||| IXGBE_VMOLR_UPE ||| IXGBE_VMOLR_VPE
      let vmolr := bitClear (regGet a.hw.vmolr vf) disable
      let a := { a with hw := { a.hw with vmolr := regSet a.hw.vmolr vf vmolr } }
      let a := a.setVf vf { a.getVf vf with xcast_mode := xcast_mode }
      (a, msg.set 1 xcast_mode, 0)
    else if xcast_mode = IXGBEVF_XCAST_MODE_MULTI then
      let disable := IXGBE_VMOLR_MPE ||| IXGBE_VMOLR_UPE ||| IXGBE_VMOLR_VPE
      let enable := IXGBE_VMOLR_BAM ||| IXGBE_VMOLR_ROMPE
      let vmolr := bitClear (regGet a.hw.vmolr vf) disable ||| enable
      let a := { a with hw := { a.hw with vmolr := regSet a.hw.vmolr vf vmolr } }
      let a := a.setVf vf { a.getVf vf with xcast_mode := xcast_mode }
      (a, msg.set 1 xcast_mode, 0)
    else if xcast_mode = IXGBEVF_XCAST_MODE_ALLMULTI then
      let disable := IXGBE_VMOLR_UPE ||| IXGBE_VMOLR_VPE
      let enable := IXGBE_VMOLR_BAM ||| IXGBE_VMOLR_ROMPE ||| IXGBE_VMOLR_MPE
      let vmolr := bitClear (regGet a.hw.vmolr vf) disable ||| enable
      let a := { a with hw := { a.hw with vmolr := regSet a.hw.vmolr vf vmolr } }
      let a := a.setVf vf { a.getVf vf with xcast_mode := xcast_mode }
      (a, msg.set 1 xcast_mode, 0)
    else if xcast_mode = IXGBEVF_XCAST_MODE_PROMISC then
      if a.hw.mac_type ≤ ixgbe_mac_82599EB then (a, msg, -EOPNOTSUPP)
      else if a.hw.fctrl &&& IXGBE_FCTRL_UPE = 0 then (a, msg, -EPERM)
      else
        let enable := IXGBE_VMOLR_BAM ||| IXGBE_VMOLR_ROMPE |||
                      IXGBE_VMOLR_MPE ||| IXGBE_VMOLR_UPE ||| IXGBE_VMOLR_VPE
        let vmolr := regGet a.hw.vmolr vf ||| enable
        let a := { a with hw := { a.hw with vmolr := regSet a.hw.vmolr vf vmolr } }
        let a := a.setVf vf { a.getVf vf with xcast_mode := xcast_mode }
        (a, msg.set 1 xcast_mode, 0)
    else (a, msg, -EOPNOTSUPP)

/-- ixgbe_get_vf_link_state: report the VF's administrative link enable
to a VF that negotiated a sufficient API version. -/
def ixgbe_get_vf_link_state (a : Adapter) (msg : List Nat) (vf : Nat) :
    Adapter × List Nat × Int :=
  let api := (a.getVf vf).vf_api
  if ¬(api = ixgbe_mbox_api_12 ∨ api = ixgbe_mbox_api_13) then
    (a, msg, -EOPNOTSUPP)
  else
    (a, msg.set 1 (if (a.getVf vf).link_enable then 1 else 0), 0)

/-- Result of one ixgbe_rcv_msg_from_vf invocation: the new adapter
state, the mailbox messages written back to the VF during the call (in
order), and the C return value. -/
structure MsgResult where
  st : Adapter
  writes : List (List Nat)
  retval : Int
  deriving Repr, DecidableEq
/-- The opcode switch of ixgbe_rcv_msg_from_vf: dispatch the low 16
header bits to the matching handler; an unknown opcode fails with
IXGBE_ERR_MBX.  Returns the new state, the (possibly updated) message
buffer and the handler return value. -/
def ixgbe_rcv_dispatch (a : Adapter) (vf : Nat) (msg : List Nat)
    (addRet : Int) : Adapter × List Nat × Int :=
  let opcode := (msg.getD 0 0) &&& 0xFFFF
  if opcode = IXGBE_VF_SET_MAC_ADDR then
    let s := ixgbe_set_vf_mac_addr a msg vf addRet
    (s.1, msg, s.2)
  else if opcode = IXGBE_VF_SET_MULTICAST then
    let s := ixgbe_set_vf_multicasts a msg vf
    (s.1, msg, s.2)
  else if opcode = IXGBE_VF_SET_VLAN then
    let s := ixgbe_set_vf_vlan_msg a msg vf
    (s.1, msg, s.2)
  else if opcode = IXGBE_VF_SET_LPE then
    let s := ixgbe_set_vf_lpe a (msg.getD 1 0) vf
    (s.1, msg, s.2)
  else if opcode = IXGBE_VF_SET_MACVLAN then
    let s := ixgbe_set_vf_macvlan_msg a msg vf addRet
    (s.1, msg, s.2)
  else if opcode = IXGBE_VF_API_NEGOTIATE then
    let s := ixgbe_negotiate_vf_api a msg vf
    (s.1, msg, s.2)
  else if opcode = IXGBE_VF_GET_QUEUES then
    ixgbe_get_vf_queues a msg vf
  else if opcode = IXGBE_VF_GET_RETA then
    ixgbe_get_vf_reta a msg vf
  else if opcode = IXGBE_VF_GET_RSS_KEY then
    ixgbe_get_vf_rss_key a msg vf
  else if opcode = IXGBE_VF_UPDATE_XCAST_MODE then
    ixgbe_update_vf_xcast_mode a msg vf
  else if opcode = IXGBE_VF_GET_LINK_STATE then
    ixgbe_get_vf_link_state a msg vf
  else
    (a, msg, IXGBE_ERR_MBX)

/-- ixgbe_rcv_msg_from_vf: process one pending mailbox message from a VF.
The msg argument is the message successfully read from the channel (a
transport read failure returns before any of this logic and is outside
the embedding); addRet is the backend oracle for any mac-filter add the
dispatched handler performs.  A message already tagged SUCCESS or FAILURE
was already processed and is dropped; a full-word RESET message goes to
the reset handler; any other message while clear_to_send is false is
answered with a FAILURE echo and no handler runs; otherwise the low 16
opcode bits are dispatched (a SET_LPE request above the maximum jumbo
frame size returns -EINVAL before the response write) and exactly one
CTS-tagged response carrying SUCCESS or FAILURE is written back. -/
def ixgbe_rcv_msg_from_vf (a : Adapter) (vf : Nat) (msg : List Nat)
    (addRet : Int) : MsgResult :=
  let w0 := msg.getD 0 0
  if w0 &&& (IXGBE_VT_MSGTYPE_SUCCESS ||| IXGBE_VT_MSGTYPE_FAILURE) ≠ 0 then
    { st := a, writes := [], retval := 0 }
  else if w0 = IXGBE_VF_RESET then
    let r := ixgbe_vf_reset_msg a vf addRet
    { st := r.1, writes := [r.2.1], retval := r.2.2 }
  else if ¬(a.getVf vf).clear_to_send then
    { st := a, writes := [[w0 ||| IXGBE_VT_MSGTYPE_FAILURE]], retval := 0 }
  else
    let opcode := w0 &&& 0xFFFF
    if opcode = IXGBE_VF_SET_LPE ∧
       msg.getD 1 0 > IXGBE_MAX_JUMBO_FRAME_SIZE then
      { st := a, writes := [], retval := -EINVAL }
    else
      let r := ixgbe_rcv_dispatch a vf msg addRet
      let status := if r.2.2 ≠ 0 then IXGBE_VT_MSGTYPE_FAILURE
                    else IXGBE_VT_MSGTYPE_SUCCESS
      let resp := r.2.1.set 0
                  ((r.2.1.getD 0 0) ||| status ||| IXGBE_VT_MSGTYPE_CTS)
      { st := r.1, writes := [resp], retval := r.2.2 }

/-! Lifecycle controller. -/

def IXGBE_DCB_MAX_TRAFFIC_CLASS : Nat := 8

/-- VF record right after SR-IOV enable: kcalloc-zeroed, then spoof
checking and link on, untrusted, xcast mode NONE, RSS query off. -/
def enabledVfInit : VfInfo :=
  { VfInfo.zeroed with
    spoofchk_enabled := true
    link_enable := true
    rss_query_enabled := false
    trusted := false
    xcast_mode := IXGBEVF_XCAST_MODE_NONE }

/-- ixgbe_alloc_vf_macvlans: size the shared macvlan pool from the RAR
table minus the PF's and each VF's reserved entries; mvAllocOk is the
kcalloc oracle.  A zero size (or failed allocation) leaves the pool
absent. -/
def ixgbe_alloc_vf_macvlans (a : Adapter) (num_vfs : Nat)
    (mvAllocOk : Bool) : Adapter :=
  let n : Int := (a.hw.num_rar_entries : Int) -
                 ((IXGBE_MAX_PF_MACVLANS : Int) + 1 + num_vfs)
  if n = 0 then a
  else if mvAllocOk ∧ n > 0 then
    { a with mv_list := some (List.replicate n.toNat
        { vf := -1, free := true, is_macvlan := false,
          vf_macvlan := zeroMac }) }
  else a

/-- The double-underscore enable helper of the source: set the SR-IOV and
VMDq mode flags, allocate the VF record table (oracle vfinfoAllocOk) and
the macvlan pool, derive the traffic class limits from the VF count,
disable RSC, and install the default per-VF policy. -/
def ixgbe_enable_sriov_locked (a : Adapter) (num_vfs : Nat)
    (vfinfoAllocOk mvAllocOk : Bool) : Adapter × Int :=
  if a.xdp_prog then (a, -EINVAL)
  else
    let a := { a with flags_sriov_enabled := true, flags_vmdq_enabled := true }
    let a := if a.vmdq_limit = 0 then { a with vmdq_limit := 1 } else a
    if ¬vfinfoAllocOk then (a, -ENOMEM)
    else
      let a := { a with
                 vfinfo := some (List.replicate num_vfs VfInfo.zeroed)
                 hw := { a.hw with pfdtxgswc := IXGBE_PFDTXGSWC_VT_LBEN }
                 num_vfs := num_vfs }
      let a := ixgbe_alloc_vf_macvlans a num_vfs mvAllocOk
      let a := { a with
                 vmdq_offset := num_vfs
                 flags_l2switch_enable := true
                 flags_replication_enable := true }
      let a :=
        if a.hw.mac_type = ixgbe_mac_82599EB ∧ a.num_vfs < 16 then
          { a with dcb_pg_tcs := IXGBE_DCB_MAX_TRAFFIC_CLASS
                   dcb_pfc_tcs := IXGBE_DCB_MAX_TRAFFIC_CLASS }
        else if a.num_vfs < 32 then
          { a with dcb_pg_tcs := 4, dcb_pfc_tcs := 4 }
        else
          { a with dcb_pg_tcs := 1, dcb_pfc_tcs := 1 }
      let a := { a with
                 dcb_vt_mode := true
                 flags2_rsc_capable := false
                 flags2_rsc_enabled := false }
      let a := { a with vfinfo := some (List.replicate num_vfs enabledVfInit) }
      (a, 0)

/-- ixgbe_disable_sriov: zero the visible VF count first, release the VF
device references, free the VF record table and the macvlan pool; then,
if the feature was on, turn off malicious driver detection, and bail out
with -EPERM if VFs are still assigned to guests (vfs_assigned is the
pci_vfs_assigned oracle); otherwise restore the device registers to
non-virtualized defaults and drop the mode flags. -/
def ixgbe_disable_sriov (a : Adapter) (vfs_assigned : Bool) :
    Adapter × Int :=
  let a := { a with num_vfs := 0 }
  let a := { a with
             vfinfo := a.vfinfo.map (List.map
               (fun (v : VfInfo) => { v with vfdev_held := false })) }
  let a := { a with vfinfo := none, mv_list := none }
  if ¬a.flags_sriov_enabled then (a, 0)
  else
    let a := if a.hw.has_mdd_ops ∧ ¬a.flags_mdd_enabled then
               { a with hw := { a.hw with mdd_active := false } }
             else a
    if vfs_assigned then (a, -EPERM)
    else
      let a := { a with hw :=
                 { a.hw with
                   gcr_ext := 0
                   gpie := bitClear a.hw.gpie IXGBE_GPIE_VTMODE_MASK
                   vt_ctl := bitClear a.hw.vt_ctl IXGBE_VT_CTL_POOL_MASK } }
      let a := if a.vmdq_limit = 1 then { a with flags_vmdq_enabled := false }
               else a
      let a := { a with flags_sriov_enabled := false, vmdq_offset := 0 }
      (a, 0)

/-- ixgbe_vf_configuration: on the enable event, zero the VF's recorded
MAC address. -/
def ixgbe_vf_configuration (a : Adapter) (event_mask : Nat) :
    Adapter × Int :=
  let vfn := event_mask &&& 0x3F
  let enable := event_mask &&& 0x10000000 ≠ 0
  if enable then
    (a.setVf vfn { a.getVf vfn with vf_mac_addresses := zeroMac }, 0)
  else (a, 0)

/-- ixgbe_get_vfs: take a device reference for every VF slot (the PCI
enumeration is external; its observable effect on this state is the held
reference per record). -/
def ixgbe_get_vfs (a : Adapter) : Adapter :=
  { a with vfinfo := a.vfinfo.map (List.map
      (fun (v : VfInfo) => { v with vfdev_held := true })) }

/-- ixgbe_pci_sriov_enable: the sysfs entry point for enabling or
reconfiguring SR-IOV.  pre_existing_vfs is the pci_num_vf oracle,
vfs_assigned the pci_vfs_assigned oracle used by a disable performed for
reconfiguration, pciEnableRet the pci_enable_sriov oracle.  Validates the
requested count against the traffic-class dependent caps and returns the
granted count or a negative error. -/
def ixgbe_pci_sriov_enable (a : Adapter) (num_vfs pre_existing_vfs : Nat)
    (vfs_assigned : Bool) (vfinfoAllocOk mvAllocOk : Bool)
    (pciEnableRet : Int) : Adapter × Int :=
  if ¬a.flags_sriov_capable then (a, -EOPNOTSUPP)
  else if a.num_vfs = num_vfs then (a, -EINVAL)
  else if pre_existing_vfs ≠ 0 ∧ pre_existing_vfs = num_vfs then
    (a, (num_vfs : Int))
  else
    let step := if pre_existing_vfs ≠ 0 then ixgbe_disable_sriov a vfs_assigned
                else (a, 0)
    let a := step.1
    if step.2 ≠ 0 then (a, step.2)
    else
      let num_tc := a.num_tcs
      let cap_exceeded : Bool :=
        if num_tc > 4 then num_vfs > IXGBE_MAX_VFS_8TC
        else if num_tc > 1 ∧ num_tc ≤ 4 then num_vfs > IXGBE_MAX_VFS_4TC
        else num_vfs > IXGBE_MAX_VFS_1TC
      if cap_exceeded then (a, -EPERM)
      else
        let step2 := ixgbe_enable_sriov_locked a num_vfs vfinfoAllocOk mvAllocOk
        let a := step2.1
        if step2.2 ≠ 0 then (a, step2.2)
        else
          let a := (List.range a.num_vfs).foldl
                   (fun s i => (ixgbe_vf_configuration s (i ||| 0x10000000)).1) a
          if pciEnableRet ≠ 0 then (a, pciEnableRet)
          else (ixgbe_get_vfs a, (num_vfs : Int))

/-! Concrete states used by the witnesses and counterexamples. -/

/-- A small concrete hardware state (X550 generation). -/
def testHw : HwState :=
  { mac_type := ixgbe_mac_X550
    num_rar_entries := 128
    mc_filter_type := 0
    maxfrs := 1518
    fctrl := 0
    vfre := [0, 0]
    vfte := [0, 0]
    vmolr := [0, 0, 0, 0]
    vmvir := [0, 0, 0, 0]
    vmecm := [0, 0]
    pfdtxgswc := 0
    gcr_ext := 0
    gpie := 0
    vt_ctl := 0
    has_mdd_ops := true
    mdd_active := false
    vlan_filters := [] }

/-- A concrete adapter with two enabled VFs and no special policy. -/
def testAdapter : Adapter :=
  { num_vfs := 2
    vfinfo := some [enabledVfInit, enabledVfInit]
    mv_list := some []
    flags_sriov_enabled := true
    flags_sriov_capable := true
    flags_vmdq_enabled := true
    flags_mdd_enabled := false
    flags_l2switch_enable := true
    flags_replication_enable := true
    flags2_rsc_capable := false
    flags2_rsc_enabled := false
    flags2_vlan_promisc := false
    vmdq_limit := 1
    vmdq_offset := 2
    vmdq_mask := 3
    dcb_pg_tcs := 1
    dcb_pfc_tcs := 1
    dcb_vt_mode := true
    netdev_mtu := 1500
    num_tcs := 0
    active_vlans := []
    default_up := 0
    rss_key := [1, 2, 3, 4, 5, 6, 7, 8, 9, 10]
    rss_indir_tbl := List.replicate 128 0
    xdp_prog := false
    hw := testHw }

/-- A blank 16-word mailbox message with the given first words. -/
def mkMsg (ws : List Nat) : List Nat :=
  (ws ++ List.replicate IXGBE_VFMAILBOX_SIZE 0).take IXGBE_VFMAILBOX_SIZE

/-! Helper lemmas about bits, lists and the state accessors. -/

def pvAdapter : Adapter :=
  { testAdapter with
    vfinfo := some [{ enabledVfInit with clear_to_send := true, pf_vlan := 5 },
                    enabledVfInit] }

def promAdapter : Adapter :=
  { testAdapter with
    vfinfo := some [{ enabledVfInit with clear_to_send := true,
                                         trusted := true,
                                         vf_api := ixgbe_mbox_api_13,
                                         xcast_mode := IXGBEVF_XCAST_MODE_PROMISC },
                    enabledVfInit] }

def pinAdapter : Adapter :=
  { testAdapter with
    vfinfo := some [{ enabledVfInit with vf_mac_addresses := [2, 0, 0, 0, 0, 7],
                                         pf_set_mac := true },
                    enabledVfInit] }

def trustAdapter : Adapter :=
  { testAdapter with
    vfinfo := some [{ enabledVfInit with trusted := true }, enabledVfInit] }

def api12Adapter : Adapter :=
  { testAdapter with
    vfinfo := some [{ enabledVfInit with clear_to_send := true,
                                         vf_api := ixgbe_mbox_api_12 },
                    enabledVfInit] }

def x13Adapter : Adapter :=
  { testAdapter with
    vfinfo := some [{ enabledVfInit with clear_to_send := true,
                                         vf_api := ixgbe_mbox_api_13 },
                    enabledVfInit] }

def promGateAdapter : Adapter :=
  { testAdapter with
    vfinfo := some [{ enabledVfInit with clear_to_send := true,
                                         trusted := true,
                                         vf_api := ixgbe_mbox_api_13 },
                    enabledVfInit] }

def promOkAdapter : Adapter :=
  { promGateAdapter with hw := { testHw with fctrl := IXGBE_FCTRL_UPE } }

def ctsAdapter : Adapter :=
  { testAdapter with
    vfinfo := some [{ enabledVfInit with clear_to_send := true },
                    enabledVfInit] }

example : align_mask 1 3 = 4 := by decide

example : is_valid_ether_addr [2, 0, 0, 0, 0, 5] = true := by decide

example : is_valid_ether_addr [1, 0, 0, 0, 0, 5] = false := by decide

example : (mkMsg [5, 9]).length = 16 := by decide

theorem lor_land_self (a b : Nat) : (a ||| b) &&& b = b := by
  apply Nat.eq_of_testBit_eq
  intro i
  rw [Nat.testBit_land, Nat.testBit_lor]
  cases h : a.testBit i <;> cases h2 : b.testBit i <;> rfl

theorem lor_parts_eq_zero (a b : Nat) (h : a ||| b = 0) :
    a = 0 ∧ b = 0 := by
  constructor <;>
  · apply Nat.eq_of_testBit_eq
    intro i
    have hi := congrArg (Nat.testBit · i) h
    simp only [Nat.testBit_lor, Nat.zero_testBit] at hi ⊢
    cases Bool.or_eq_false_iff.mp hi with
    | intro l r => simp [l, r]

theorem getVf_setVf (a : Adapter) (vf : Nat) (v : VfInfo)
    (h : vf < (a.vfinfo.getD []).length) :
    (a.setVf vf v).getVf vf = v := by
  rcases hv : a.vfinfo with _ | l
  · rw [hv] at h; simp at h
  · rw [hv] at h
    simp only [Option.getD_some] at h
    simp only [Adapter.getVf, Adapter.setVf, hv, Option.map_some',
               Option.getD_some]
    rw [List.getD_eq_getElem _ _ (by simpa using h)]
    exact List.getElem_set_self _

theorem setVf_vfinfo_length (a : Adapter) (vf : Nat) (v : VfInfo) :
    ((a.setVf vf v).vfinfo.getD []).length = (a.vfinfo.getD []).length := by
  rcases hv : a.vfinfo with _ | l <;>
    simp [Adapter.setVf, hv]

/-- C10: the device-wide stored maximum frame size (MAXFRS) is
monotonically non-decreasing under ixgbe_set_vf_lpe: a request at or
below the current value leaves it unchanged, and whenever the stored
value changes, the request exceeded it and the new value is the
requested size. -/
theorem set_vf_lpe_maxfrs_monotone (a : Adapter) (max_frame vf : Nat) :
    a.hw.maxfrs ≤ (ixgbe_set_vf_lpe a max_frame vf).1.hw.maxfrs ∧
    (max_frame ≤ a.hw.maxfrs →
      (ixgbe_set_vf_lpe a max_frame vf).1.hw.maxfrs = a.hw.maxfrs) ∧
    ((ixgbe_set_vf_lpe a max_frame vf).1.hw.maxfrs ≠ a.hw.maxfrs →
      a.hw.maxfrs < max_frame ∧
      (ixgbe_set_vf_lpe a max_frame vf).1.hw.maxfrs = max_frame) := by
  unfold ixgbe_set_vf_lpe
  dsimp only
  split_ifs <;> simp_all <;> omega

/-- C9: setting a VF MAC is not atomic on error: when the backend
mac-filter add fails (addRet < 0) during ixgbe_set_vf_mac, the stored
MAC record is zeroed rather than left at its previous value, and the
call reports the failure. -/
theorem set_vf_mac_failed_add_zeroes (a : Adapter) (vf : Nat)
    (mac : List Nat) (addRet : Int)
    (hv : vf < (a.vfinfo.getD []).length) (h : addRet < 0) :
    ((ixgbe_set_vf_mac a vf mac addRet).1.getVf vf).vf_mac_addresses
      = zeroMac ∧
    (ixgbe_set_vf_mac a vf mac addRet).2 < 0 := by
  unfold ixgbe_set_vf_mac ixgbe_add_mac_filter
  dsimp only
  refine ⟨?_, h⟩
  rw [getVf_setVf _ _ _ hv]
  rw [if_neg (by omega)]

/-- C5: a SET_MAC_ADDR request from an untrusted VF, after the PF pinned
a MAC different from the requested (valid) address, fails with the
permission-denied result -1 and leaves the whole state unchanged; the
same request from a trusted VF succeeds (result 0, assuming the backend
filter add succeeds) and updates the stored MAC record to the requested
address. -/
theorem set_vf_mac_addr_policy (a : Adapter) (msg : List Nat) (vf : Nat)
    (addRet : Int) :
    ((a.getVf vf).pf_set_mac = true → (a.getVf vf).trusted = false →
     is_valid_ether_addr (macFromMsg msg) = true →
     macFromMsg msg ≠ (a.getVf vf).vf_mac_addresses →
     (ixgbe_set_vf_mac_addr a msg vf addRet).2 = -1 ∧
     (ixgbe_set_vf_mac_addr a msg vf addRet).1 = a) ∧
    (vf < (a.vfinfo.getD []).length →
     (a.getVf vf).trusted = true →
     is_valid_ether_addr (macFromMsg msg) = true →
     0 ≤ addRet →
     (ixgbe_set_vf_mac_addr a msg vf addRet).2 = 0 ∧
     ((ixgbe_set_vf_mac_addr a msg vf addRet).1.getVf vf).vf_mac_addresses
       = macFromMsg msg) := by
  constructor
  · intro h1 h2 h3 h4
    unfold ixgbe_set_vf_mac_addr
    rw [if_neg (by simp [h3])]
    rw [if_pos (by simp [h1, h2]; exact h4)]
    exact ⟨rfl, rfl⟩
  · intro hv h1 h2 h3
    unfold ixgbe_set_vf_mac_addr
    rw [if_neg (by simp [h2])]
    rw [if_neg (by simp [h1])]
    dsimp only
    unfold ixgbe_set_vf_mac ixgbe_add_mac_filter
    dsimp only
    constructor
    · rw [if_neg (by omega)]
    · rw [getVf_setVf _ _ _ hv, if_pos h3]

/-- C6: enabling SR-IOV validates the requested VF count against the
traffic-class dependent cap: with more than 4 TCs at most 15 VFs, with
2 to 4 TCs at most 31, with at most 1 TC at most 63; a request above
the cap is rejected with the error the code returns for it (-EPERM,
the rejection the spec taxonomy calls InvalidConfig) and the state is
untouched. -/
theorem pci_sriov_enable_tc_caps (a : Adapter) (num_vfs : Nat)
    (vOk mOk : Bool) (pciRet : Int)
    (hcap : a.flags_sriov_capable = true)
    (hne : a.num_vfs ≠ num_vfs) :
    (a.num_tcs > 4 → num_vfs > IXGBE_MAX_VFS_8TC →
      (ixgbe_pci_sriov_enable a num_vfs 0 false vOk mOk pciRet).2 = -EPERM ∧
      (ixgbe_pci_sriov_enable a num_vfs 0 false vOk mOk pciRet).1 = a) ∧
    (2 ≤ a.num_tcs → a.num_tcs ≤ 4 → num_vfs > IXGBE_MAX_VFS_4TC →
      (ixgbe_pci_sriov_enable a num_vfs 0 false vOk mOk pciRet).2 = -EPERM ∧
      (ixgbe_pci_sriov_enable a num_vfs 0 false vOk mOk pciRet).1 = a) ∧
    (a.num_tcs ≤ 1 → num_vfs > IXGBE_MAX_VFS_1TC →
      (ixgbe_pci_sriov_enable a num_vfs 0 false vOk mOk pciRet).2 = -EPERM ∧
      (ixgbe_pci_sriov_enable a num_vfs 0 false vOk mOk pciRet).1 = a) := by
  unfold ixgbe_pci_sriov_enable
  simp only [hcap, hne, ne_eq, not_true_eq_false, not_false_eq_true,
             ite_true, ite_false, if_neg, not_and, and_false, false_and,
             Bool.true_eq_false, if_false]
  norm_num
  refine ⟨?_, ?_, ?_⟩
  · intro h1 h2
    rw [if_pos (by rw [if_pos h1]; simpa using h2)]
    exact ⟨rfl, rfl⟩
  · intro h1 h2 h3
    rw [if_pos (by rw [if_neg (by omega), if_pos (by omega)]; simpa using h3)]
    exact ⟨rfl, rfl⟩
  · intro h1 h2
    rw [if_pos (by rw [if_neg (by omega), if_neg (by omega)]; simpa using h2)]
    exact ⟨rfl, rfl⟩

/-- Counterexample to C1 as stated: a pending message that already bears
a SUCCESS tag (a replayed, already-processed message) with a non-RESET
opcode is dropped without any FAILURE reply while clear_to_send is
false, so not every pending non-RESET message is answered FAILURE. -/
theorem rcv_msg_cts_gate_cex :
    (testAdapter.getVf 0).clear_to_send = false ∧
    (IXGBE_VF_SET_MULTICAST ||| IXGBE_VT_MSGTYPE_SUCCESS) &&& 0xFFFF
      ≠ IXGBE_VF_RESET ∧
    (ixgbe_rcv_msg_from_vf testAdapter 0
      (mkMsg [IXGBE_VF_SET_MULTICAST ||| IXGBE_VT_MSGTYPE_SUCCESS]) 0).writes
      = [] := by decide

/-- C1 (amended): while a VF's clear_to_send flag is false, processing
any pending mailbox message that does not already bear a SUCCESS or
FAILURE tag and whose opcode is not RESET writes back a single
FAILURE-tagged echo of the header and executes no handler: the adapter
state is completely unchanged.  Only a RESET message is dispatched in
that state. -/
theorem rcv_msg_cts_gate (a : Adapter) (vf : Nat) (msg : List Nat)
    (addRet : Int)
    (hcts : (a.getVf vf).clear_to_send = false)
    (hun : (msg.getD 0 0) &&&
      (IXGBE_VT_MSGTYPE_SUCCESS ||| IXGBE_VT_MSGTYPE_FAILURE) = 0)
    (hop : (msg.getD 0 0) &&& 0xFFFF ≠ IXGBE_VF_RESET) :
    (ixgbe_rcv_msg_from_vf a vf msg addRet).st = a ∧
    (ixgbe_rcv_msg_from_vf a vf msg addRet).writes =
      [[msg.getD 0 0 ||| IXGBE_VT_MSGTYPE_FAILURE]] := by
  unfold ixgbe_rcv_msg_from_vf
  rw [if_neg (not_ne_iff.mpr hun)]
  rw [if_neg (by intro h; exact hop (by rw [h]; decide))]
  rw [if_pos (by simp [hcts])]
  exact ⟨rfl, rfl⟩

/-- Witness for C1 at a concrete adapter and a SET_MAC_ADDR message. -/
theorem rcv_msg_cts_gate_witness :
    ((testAdapter.getVf 0).clear_to_send = false ∧
     ((mkMsg [IXGBE_VF_SET_MAC_ADDR]).getD 0 0) &&&
       (IXGBE_VT_MSGTYPE_SUCCESS ||| IXGBE_VT_MSGTYPE_FAILURE) = 0 ∧
     ((mkMsg [IXGBE_VF_SET_MAC_ADDR]).getD 0 0) &&& 0xFFFF
       ≠ IXGBE_VF_RESET) ∧
    ((ixgbe_rcv_msg_from_vf testAdapter 0
        (mkMsg [IXGBE_VF_SET_MAC_ADDR]) 0).st = testAdapter ∧
     (ixgbe_rcv_msg_from_vf testAdapter 0
        (mkMsg [IXGBE_VF_SET_MAC_ADDR]) 0).writes =
       [[(mkMsg [IXGBE_VF_SET_MAC_ADDR]).getD 0 0 |||
         IXGBE_VT_MSGTYPE_FAILURE]]) :=
  ⟨⟨by decide, by decide, by decide⟩,
   rcv_msg_cts_gate testAdapter 0 (mkMsg [IXGBE_VF_SET_MAC_ADDR]) 0
     (by decide) (by decide) (by decide)⟩

/-- Counterexample to C2 as stated: on a concrete enabled adapter with
two VFs, a disable that fails with Busy (-EPERM, VFs assigned) has
already zeroed the visible VF count and freed the VF record table, so
they are not as they were before the call. -/
theorem disable_sriov_busy_cex :
    testAdapter.num_vfs = 2 ∧ testAdapter.vfinfo ≠ none ∧
    (ixgbe_disable_sriov testAdapter true).2 = -EPERM ∧
    (ixgbe_disable_sriov testAdapter true).1.num_vfs = 0 ∧
    (ixgbe_disable_sriov testAdapter true).1.vfinfo = none := by decide

/-- C2 (amended): when disable fails with Busy because VFs are assigned
to guests, hardware virtualization is left enabled (the SR-IOV flag
stays set and the IOV device registers are not restored), but the
software bookkeeping has already been torn down: the visible VF count
is zeroed and the VF record table and macvlan pool are freed; a
reconfiguration (disable-then-enable) that hits this failure aborts
with the Busy error, does not allocate a new table, and likewise leaves
the count zeroed with the hardware flag still set. -/
theorem disable_sriov_busy (a : Adapter) (n pre : Nat) (vOk mOk : Bool)
    (pciRet : Int)
    (hen : a.flags_sriov_enabled = true)
    (hcap : a.flags_sriov_capable = true)
    (hne : a.num_vfs ≠ n) (hpre0 : pre ≠ 0) (hpren : pre ≠ n) :
    ((ixgbe_disable_sriov a true).2 = -EPERM ∧
     (ixgbe_disable_sriov a true).1.num_vfs = 0 ∧
     (ixgbe_disable_sriov a true).1.vfinfo = none ∧
     (ixgbe_disable_sriov a true).1.mv_list = none ∧
     (ixgbe_disable_sriov a true).1.flags_sriov_enabled = true ∧
     (ixgbe_disable_sriov a true).1.hw.gcr_ext = a.hw.gcr_ext ∧
     (ixgbe_disable_sriov a true).1.hw.gpie = a.hw.gpie ∧
     (ixgbe_disable_sriov a true).1.hw.vt_ctl = a.hw.vt_ctl) ∧
    ((ixgbe_pci_sriov_enable a n pre true vOk mOk pciRet).2 = -EPERM ∧
     (ixgbe_pci_sriov_enable a n pre true vOk mOk pciRet).1.num_vfs = 0 ∧
     (ixgbe_pci_sriov_enable a n pre true vOk mOk pciRet).1.vfinfo = none ∧
     (ixgbe_pci_sriov_enable a n pre true vOk mOk pciRet).1.flags_sriov_enabled
       = true) := by
  have hd : (ixgbe_disable_sriov a true).2 = -EPERM ∧
      (ixgbe_disable_sriov a true).1.num_vfs = 0 ∧
      (ixgbe_disable_sriov a true).1.vfinfo = none ∧
      (ixgbe_disable_sriov a true).1.mv_list = none ∧
      (ixgbe_disable_sriov a true).1.flags_sriov_enabled = true ∧
      (ixgbe_disable_sriov a true).1.hw.gcr_ext = a.hw.gcr_ext ∧
      (ixgbe_disable_sriov a true).1.hw.gpie = a.hw.gpie ∧
      (ixgbe_disable_sriov a true).1.hw.vt_ctl = a.hw.vt_ctl := by
    unfold ixgbe_disable_sriov
    dsimp only
    rw [if_neg (by simp [hen])]
    split_ifs <;> simp_all
  refine ⟨hd, ?_⟩
  unfold ixgbe_pci_sriov_enable
  rw [if_neg (by simp [hcap]), if_neg (by simpa using hne),
      if_neg (by simp [hpren]), if_pos hpre0]
  rw [if_pos (by rw [hd.1]; decide)]
  exact ⟨hd.1, hd.2.1, hd.2.2.1, hd.2.2.2.2.1⟩

/-- Counterexample to C7 as stated: for a VF with a PF-pinned port VLAN,
a request to remove VLAN 0 is rejected with -1 (the pinned-VLAN check
runs first), not accepted as a successful no-op, so VLAN-0 removal is
not a success for every VF. -/
theorem set_vf_vlan_msg_vlan0_cex :
    (pvAdapter.getVf 0).pf_vlan = 5 ∧
    ((mkMsg [IXGBE_VF_SET_VLAN, 0]).getD 1 0) &&& IXGBE_VLVF_VLANID_MASK
      = 0 ∧
    (((mkMsg [IXGBE_VF_SET_VLAN, 0]).getD 0 0) &&& IXGBE_VT_MSGINFO_MASK)
      >>> IXGBE_VT_MSGINFO_SHIFT = 0 ∧
    (ixgbe_set_vf_vlan_msg pvAdapter (mkMsg [IXGBE_VF_SET_VLAN, 0]) 0).2
      = -1 := by decide

/-- C7 (amended): a SET_VLAN request is rejected with the permission
failure -1 and no state change whenever the PF has pinned a port VLAN
for the VF or traffic classes are active; and for every VF with no
pinned port VLAN and no traffic classes active, a request to remove
VLAN 0 is a no-op that returns success without touching any state. -/
theorem set_vf_vlan_msg_policy (a : Adapter) (msg : List Nat) (vf : Nat) :
    ((a.getVf vf).pf_vlan ≠ 0 ∨ a.num_tcs ≠ 0 →
      ixgbe_set_vf_vlan_msg a msg vf = (a, -1)) ∧
    ((a.getVf vf).pf_vlan = 0 → a.num_tcs = 0 →
      (msg.getD 1 0) &&& IXGBE_VLVF_VLANID_MASK = 0 →
      ((msg.getD 0 0) &&& IXGBE_VT_MSGINFO_MASK) >>> IXGBE_VT_MSGINFO_SHIFT
        = 0 →
      ixgbe_set_vf_vlan_msg a msg vf = (a, 0)) := by
  constructor
  · intro h
    unfold ixgbe_set_vf_vlan_msg
    rw [if_pos h]
  · intro h1 h2 h3 h4
    unfold ixgbe_set_vf_vlan_msg
    rw [if_neg (by simp [h1, h2])]
    rw [if_pos ⟨h3, h4⟩]

/-- Witness for C7: rejection for a pinned VF, VLAN-0-removal no-op
success for an unpinned VF. -/
theorem set_vf_vlan_msg_policy_witness :
    ((pvAdapter.getVf 0).pf_vlan ≠ 0 ∧
     ixgbe_set_vf_vlan_msg pvAdapter (mkMsg [IXGBE_VF_SET_VLAN, 7]) 0
       = (pvAdapter, -1)) ∧
    ((testAdapter.getVf 0).pf_vlan = 0 ∧ testAdapter.num_tcs = 0 ∧
     ixgbe_set_vf_vlan_msg testAdapter (mkMsg [IXGBE_VF_SET_VLAN, 0]) 0
       = (testAdapter, 0)) :=
  ⟨⟨by decide,
    (set_vf_vlan_msg_policy pvAdapter (mkMsg [IXGBE_VF_SET_VLAN, 7]) 0).1
      (Or.inl (by decide))⟩,
   ⟨by decide, by decide,
    (set_vf_vlan_msg_policy testAdapter (mkMsg [IXGBE_VF_SET_VLAN, 0]) 0).2
      (by decide) (by decide) (by decide) (by decide)⟩⟩

/-- Counterexample to C8 as stated: a trusted VF (api 1.3, X550) whose
current xcast mode is already PROMISC gets success for a PROMISC
request even though the PF is not in promiscuous mode, so such a
request does not always fail with permission denied. -/
theorem update_xcast_mode_cex :
    (promAdapter.getVf 0).trusted = true ∧
    (promAdapter.getVf 0).vf_api = ixgbe_mbox_api_13 ∧
    promAdapter.hw.fctrl &&& IXGBE_FCTRL_UPE = 0 ∧
    (ixgbe_update_vf_xcast_mode promAdapter
      (mkMsg [IXGBE_VF_UPDATE_XCAST_MODE, IXGBEVF_XCAST_MODE_PROMISC]) 0).2.2
      = 0 := by decide

/-- C8 (amended): UPDATE_XCAST_MODE fails as unsupported when the
negotiated api level is below the minimum for the requested mode (any
mode below 1.2; PROMISC additionally below 1.3); for an untrusted VF a
requested mode above MULTI is silently downgraded and the call succeeds
echoing MULTI; and a PROMISC request from a trusted VF that would
change its mode, on hardware newer than 82599, fails with permission
denied unless the PF itself is already in promiscuous mode (in which
case it succeeds echoing PROMISC). -/
theorem update_xcast_mode_policy (a : Adapter) (msg : List Nat) (vf : Nat) :
    (((a.getVf vf).vf_api ≠ ixgbe_mbox_api_12 ∧
      (a.getVf vf).vf_api ≠ ixgbe_mbox_api_13 →
      ixgbe_update_vf_xcast_mode a msg vf = (a, msg, -EOPNOTSUPP)) ∧
     ((a.getVf vf).vf_api = ixgbe_mbox_api_12 →
      msg.getD 1 0 = IXGBEVF_XCAST_MODE_PROMISC →
      ixgbe_update_vf_xcast_mode a msg vf = (a, msg, -EOPNOTSUPP))) ∧
    (((a.getVf vf).vf_api = ixgbe_mbox_api_13 ∨
      ((a.getVf vf).vf_api = ixgbe_mbox_api_12 ∧
       msg.getD 1 0 ≠ IXGBEVF_XCAST_MODE_PROMISC)) →
     (a.getVf vf).trusted = false →
     msg.getD 1 0 > IXGBEVF_XCAST_MODE_MULTI →
     (ixgbe_update_vf_xcast_mode a msg vf).2.2 = 0 ∧
     (ixgbe_update_vf_xcast_mode a msg vf).2.1
       = msg.set 1 IXGBEVF_XCAST_MODE_MULTI) ∧
    ((a.getVf vf).vf_api = ixgbe_mbox_api_13 →
     (a.getVf vf).trusted = true →
     msg.getD 1 0 = IXGBEVF_XCAST_MODE_PROMISC →
     (a.getVf vf).xcast_mode ≠ IXGBEVF_XCAST_MODE_PROMISC →
     a.hw.mac_type > ixgbe_mac_82599EB →
     (a.hw.fctrl &&& IXGBE_FCTRL_UPE = 0 →
        ixgbe_update_vf_xcast_mode a msg vf = (a, msg, -EPERM)) ∧
     (a.hw.fctrl &&& IXGBE_FCTRL_UPE ≠ 0 →
        (ixgbe_update_vf_xcast_mode a msg vf).2.2 = 0 ∧
        (ixgbe_update_vf_xcast_mode a msg vf).2.1
          = msg.set 1 IXGBEVF_XCAST_MODE_PROMISC)) := by
  refine ⟨⟨?_, ?_⟩, ?_, ?_⟩
  · intro h
    unfold ixgbe_update_vf_xcast_mode
    rw [if_neg (by intro hc; exact h.1 hc.1),
        if_pos (not_or.mpr ⟨h.1, h.2⟩)]
  · intro h1 h2
    unfold ixgbe_update_vf_xcast_mode
    rw [if_pos ⟨h1, h2⟩]
  · intro h1 h2 h3
    unfold ixgbe_update_vf_xcast_mode
    rw [if_neg (by
      intro hc
      rcases h1 with h | h
      · rw [h] at hc
        exact absurd hc.1 (by decide)
      · exact h.2 hc.2)]
    rw [if_neg (by
      rcases h1 with h | h
      · intro hc
        exact hc (Or.inr h)
      · intro hc
        exact hc (Or.inl h.1))]
    dsimp only
    have hcond : msg.getD 1 0 > IXGBEVF_XCAST_MODE_MULTI ∧
        ¬(a.getVf vf).trusted = true := ⟨h3, by simp [h2]⟩
    rw [if_pos hcond]
    by_cases hx : (a.getVf vf).xcast_mode = IXGBEVF_XCAST_MODE_MULTI
    · rw [if_pos hx]
      exact ⟨rfl, rfl⟩
    · rw [if_neg hx, if_neg (by decide), if_pos rfl]
      exact ⟨rfl, rfl⟩
  · intro h1 h2 h3 h4 h5
    unfold ixgbe_update_vf_xcast_mode
    rw [if_neg (by intro hc; rw [h1] at hc; exact absurd hc.1 (by decide))]
    rw [if_neg (by intro hc; exact hc (Or.inr h1))]
    dsimp only
    have hmode : ¬(msg.getD 1 0 > IXGBEVF_XCAST_MODE_MULTI ∧
        ¬(a.getVf vf).trusted = true) := by simp [h2]
    rw [if_neg hmode]
    rw [h3]
    rw [if_neg h4, if_neg (by decide), if_neg (by decide), if_neg (by decide),
        if_pos rfl]
    rw [if_neg (by omega)]
    constructor
    · intro h6
      rw [if_pos h6]
    · intro h6
      rw [if_neg h6]
      exact ⟨rfl, rfl⟩

/-- Witness for C10 at a concrete adapter: a request of 5 bytes leaves
MAXFRS at 1518, a request of 9000 raises it to 9000. -/
theorem set_vf_lpe_maxfrs_monotone_witness :
    ((5 : Nat) ≤ testAdapter.hw.maxfrs ∧
     (ixgbe_set_vf_lpe testAdapter 5 0).1.hw.maxfrs = testAdapter.hw.maxfrs) ∧
    ((ixgbe_set_vf_lpe testAdapter 9000 0).1.hw.maxfrs ≠ testAdapter.hw.maxfrs ∧
     (testAdapter.hw.maxfrs < 9000 ∧
      (ixgbe_set_vf_lpe testAdapter 9000 0).1.hw.maxfrs = 9000)) :=
  ⟨⟨by decide, (set_vf_lpe_maxfrs_monotone testAdapter 5 0).2.1 (by decide)⟩,
   ⟨by decide, (set_vf_lpe_maxfrs_monotone testAdapter 9000 0).2.2 (by decide)⟩⟩

/-- Witness for C9: a failed add (backend result -28) zeroes VF 0's
recorded MAC on the concrete test adapter. -/
theorem set_vf_mac_failed_add_zeroes_witness :
    (0 < (testAdapter.vfinfo.getD []).length ∧ (-28 : Int) < 0) ∧
    (((ixgbe_set_vf_mac testAdapter 0 [2, 0, 0, 0, 0, 9] (-28)).1.getVf 0).vf_mac_addresses
       = zeroMac ∧
     (ixgbe_set_vf_mac testAdapter 0 [2, 0, 0, 0, 0, 9] (-28)).2 < 0) :=
  ⟨⟨by decide, by decide⟩,
   set_vf_mac_failed_add_zeroes testAdapter 0 [2, 0, 0, 0, 0, 9] (-28)
     (by decide) (by decide)⟩

/-- Witness for C5 at concrete adapters: denial with unchanged state for
the pinned untrusted VF, success with updated record for a trusted VF. -/
theorem set_vf_mac_addr_policy_witness :
    ((ixgbe_set_vf_mac_addr pinAdapter (mkMsg [IXGBE_VF_SET_MAC_ADDR, 4, 0]) 0 5).2
       = -1 ∧
     (ixgbe_set_vf_mac_addr pinAdapter (mkMsg [IXGBE_VF_SET_MAC_ADDR, 4, 0]) 0 5).1
       = pinAdapter) ∧
    ((ixgbe_set_vf_mac_addr trustAdapter (mkMsg [IXGBE_VF_SET_MAC_ADDR, 4, 0]) 0 5).2
       = 0 ∧
     ((ixgbe_set_vf_mac_addr trustAdapter (mkMsg [IXGBE_VF_SET_MAC_ADDR, 4, 0]) 0 5).1.getVf
         0).vf_mac_addresses
       = macFromMsg (mkMsg [IXGBE_VF_SET_MAC_ADDR, 4, 0])) :=
  ⟨(set_vf_mac_addr_policy pinAdapter (mkMsg [IXGBE_VF_SET_MAC_ADDR, 4, 0]) 0 5).1
     (by decide) (by decide) (by decide) (by decide),
   (set_vf_mac_addr_policy trustAdapter (mkMsg [IXGBE_VF_SET_MAC_ADDR, 4, 0]) 0 5).2
     (by decide) (by decide) (by decide) (by decide)⟩

/-- Witness for C6: requesting 40 VFs with 4 traffic classes active is
rejected. -/
theorem pci_sriov_enable_tc_caps_witness :
    (2 ≤ ({ testAdapter with num_tcs := 4 } : Adapter).num_tcs ∧
     ({ testAdapter with num_tcs := 4 } : Adapter).num_tcs ≤ 4 ∧
     40 > IXGBE_MAX_VFS_4TC) ∧
    ((ixgbe_pci_sriov_enable { testAdapter with num_tcs := 4 } 40 0 false
        true true 0).2 = -EPERM ∧
     (ixgbe_pci_sriov_enable { testAdapter with num_tcs := 4 } 40 0 false
        true true 0).1 = { testAdapter with num_tcs := 4 }) :=
  ⟨⟨by decide, by decide, by decide⟩,
   (pci_sriov_enable_tc_caps { testAdapter with num_tcs := 4 } 40 true true 0
     (by decide) (by decide)).2.1 (by decide) (by decide) (by decide)⟩

/-- Witness for C2 on the concrete test adapter. -/
theorem disable_sriov_busy_witness :
    (testAdapter.flags_sriov_enabled = true ∧
     testAdapter.flags_sriov_capable = true ∧
     testAdapter.num_vfs ≠ 4 ∧ (2 : Nat) ≠ 0 ∧ (2 : Nat) ≠ 4) ∧
    (((ixgbe_disable_sriov testAdapter true).2 = -EPERM ∧
      (ixgbe_disable_sriov testAdapter true).1.num_vfs = 0 ∧
      (ixgbe_disable_sriov testAdapter true).1.vfinfo = none ∧
      (ixgbe_disable_sriov testAdapter true).1.mv_list = none ∧
      (ixgbe_disable_sriov testAdapter true).1.flags_sriov_enabled = true ∧
      (ixgbe_disable_sriov testAdapter true).1.hw.gcr_ext
        = testAdapter.hw.gcr_ext ∧
      (ixgbe_disable_sriov testAdapter true).1.hw.gpie
        = testAdapter.hw.gpie ∧
      (ixgbe_disable_sriov testAdapter true).1.hw.vt_ctl
        = testAdapter.hw.vt_ctl) ∧
     ((ixgbe_pci_sriov_enable testAdapter 4 2 true true true 0).2 = -EPERM ∧
      (ixgbe_pci_sriov_enable testAdapter 4 2 true true true 0).1.num_vfs
        = 0 ∧
      (ixgbe_pci_sriov_enable testAdapter 4 2 true true true 0).1.vfinfo
        = none ∧
      (ixgbe_pci_sriov_enable testAdapter 4 2 true true
        true 0).1.flags_sriov_enabled = true)) :=
  ⟨⟨by decide, by decide, by decide, by decide, by decide⟩,
   disable_sriov_busy testAdapter 4 2 true true 0 (by decide) (by decide)
     (by decide) (by decide) (by decide)⟩

/-- Witness for C8 covering each clause at concrete adapters. -/
theorem update_xcast_mode_policy_witness :
    (ixgbe_update_vf_xcast_mode testAdapter
       (mkMsg [IXGBE_VF_UPDATE_XCAST_MODE, 1]) 0
       = (testAdapter, mkMsg [IXGBE_VF_UPDATE_XCAST_MODE, 1], -EOPNOTSUPP)) ∧
    (ixgbe_update_vf_xcast_mode api12Adapter
       (mkMsg [IXGBE_VF_UPDATE_XCAST_MODE, 3]) 0
       = (api12Adapter, mkMsg [IXGBE_VF_UPDATE_XCAST_MODE, 3], -EOPNOTSUPP)) ∧
    ((ixgbe_update_vf_xcast_mode x13Adapter
        (mkMsg [IXGBE_VF_UPDATE_XCAST_MODE, 2]) 0).2.2 = 0 ∧
     (ixgbe_update_vf_xcast_mode x13Adapter
        (mkMsg [IXGBE_VF_UPDATE_XCAST_MODE, 2]) 0).2.1
       = (mkMsg [IXGBE_VF_UPDATE_XCAST_MODE, 2]).set 1
           IXGBEVF_XCAST_MODE_MULTI) ∧
    (ixgbe_update_vf_xcast_mode promGateAdapter
       (mkMsg [IXGBE_VF_UPDATE_XCAST_MODE, 3]) 0
       = (promGateAdapter, mkMsg [IXGBE_VF_UPDATE_XCAST_MODE, 3], -EPERM)) ∧
    ((ixgbe_update_vf_xcast_mode promOkAdapter
        (mkMsg [IXGBE_VF_UPDATE_XCAST_MODE, 3]) 0).2.2 = 0 ∧
     (ixgbe_update_vf_xcast_mode promOkAdapter
        (mkMsg [IXGBE_VF_UPDATE_XCAST_MODE, 3]) 0).2.1
       = (mkMsg [IXGBE_VF_UPDATE_XCAST_MODE, 3]).set 1
           IXGBEVF_XCAST_MODE_PROMISC) :=
  ⟨(update_xcast_mode_policy testAdapter
      (mkMsg [IXGBE_VF_UPDATE_XCAST_MODE, 1]) 0).1.1 ⟨by decide, by decide⟩,
   (update_xcast_mode_policy api12Adapter
      (mkMsg [IXGBE_VF_UPDATE_XCAST_MODE, 3]) 0).1.2 (by decide) (by decide),
   (update_xcast_mode_policy x13Adapter
      (mkMsg [IXGBE_VF_UPDATE_XCAST_MODE, 2]) 0).2.1 (Or.inl (by decide))
     (by decide) (by decide),
   ((update_xcast_mode_policy promGateAdapter
      (mkMsg [IXGBE_VF_UPDATE_XCAST_MODE, 3]) 0).2.2 (by decide) (by decide)
     (by decide) (by decide) (by decide)).1 (by decide),
   ((update_xcast_mode_policy promOkAdapter
      (mkMsg [IXGBE_VF_UPDATE_XCAST_MODE, 3]) 0).2.2 (by decide) (by decide)
     (by decide) (by decide) (by decide)).2 (by decide)⟩

theorem vfinfo_clear_vf_vlans (a : Adapter) (vf : Nat) :
    (ixgbe_clear_vf_vlans a vf).vfinfo = a.vfinfo := rfl

theorem vfinfo_update_pf_promisc (a : Adapter) (vid : Nat) :
    (ixgbe_update_pf_promisc_vlvf a vid).vfinfo = a.vfinfo := by
  unfold ixgbe_update_pf_promisc_vlvf
  split_ifs <;> rfl

theorem vfinfo_set_vf_vlan (a : Adapter) (add : Bool) (vid vf : Nat) :
    ((ixgbe_set_vf_vlan a add vid vf).1).vfinfo = a.vfinfo := by
  unfold ixgbe_set_vf_vlan
  dsimp only
  split_ifs <;> simp [vfinfo_update_pf_promisc]

theorem vfinfo_set_vmolr (a : Adapter) (vf : Nat) (b : Bool) :
    (ixgbe_set_vmolr a vf b).vfinfo = a.vfinfo := rfl

theorem vfinfo_set_vmvir (a : Adapter) (vid qos vf : Nat) :
    (ixgbe_set_vmvir a vid qos vf).vfinfo = a.vfinfo := rfl

theorem vfinfo_clear_vmvir (a : Adapter) (vf : Nat) :
    (ixgbe_clear_vmvir a vf).vfinfo = a.vfinfo := rfl

theorem vfinfo_set_vf_rx_tx (a : Adapter) (vf : Nat) :
    (ixgbe_set_vf_rx_tx a vf).vfinfo = a.vfinfo := rfl

theorem vfinfo_set_vf_macvlan_clear (a : Adapter) (vf : Nat) :
    ((ixgbe_set_vf_macvlan a vf 0 [] 0).1).vfinfo = a.vfinfo := rfl

theorem getVf_of_vfinfo_eq (a b : Adapter) (h : a.vfinfo = b.vfinfo)
    (vf : Nat) : a.getVf vf = b.getVf vf := by
  unfold Adapter.getVf
  rw [h]

theorem getVf_clear_vf_vlans (a : Adapter) (vf2 vf : Nat) :
    (ixgbe_clear_vf_vlans a vf2).getVf vf = a.getVf vf :=
  getVf_of_vfinfo_eq _ _ (vfinfo_clear_vf_vlans a vf2) vf

theorem getVf_set_vf_vlan (a : Adapter) (add : Bool) (vid vf2 vf : Nat) :
    ((ixgbe_set_vf_vlan a add vid vf2).1).getVf vf = a.getVf vf :=
  getVf_of_vfinfo_eq _ _ (vfinfo_set_vf_vlan a add vid vf2) vf

theorem getVf_set_vmolr (a : Adapter) (vf2 : Nat) (b : Bool) (vf : Nat) :
    (ixgbe_set_vmolr a vf2 b).getVf vf = a.getVf vf :=
  getVf_of_vfinfo_eq _ _ (vfinfo_set_vmolr a vf2 b) vf

theorem getVf_set_vmvir (a : Adapter) (vid qos vf2 vf : Nat) :
    (ixgbe_set_vmvir a vid qos vf2).getVf vf = a.getVf vf :=
  getVf_of_vfinfo_eq _ _ (vfinfo_set_vmvir a vid qos vf2) vf

theorem getVf_clear_vmvir (a : Adapter) (vf2 vf : Nat) :
    (ixgbe_clear_vmvir a vf2).getVf vf = a.getVf vf :=
  getVf_of_vfinfo_eq _ _ (vfinfo_clear_vmvir a vf2) vf

theorem getVf_set_vf_rx_tx (a : Adapter) (vf2 vf : Nat) :
    (ixgbe_set_vf_rx_tx a vf2).getVf vf = a.getVf vf :=
  getVf_of_vfinfo_eq _ _ (vfinfo_set_vf_rx_tx a vf2) vf

theorem vfinfo_vmecm_enable (a : Adapter) (vf : Nat) :
    (vmecm_enable a vf).vfinfo = a.vfinfo := rfl

theorem getVf_vmecm_enable (a : Adapter) (vf2 vf : Nat) :
    (vmecm_enable a vf2).getVf vf = a.getVf vf := rfl

theorem getVf_set_vf_macvlan_clear (a : Adapter) (vf2 vf : Nat) :
    ((ixgbe_set_vf_macvlan a vf2 0 [] 0).1).getVf vf = a.getVf vf :=
  getVf_of_vfinfo_eq _ _ (vfinfo_set_vf_macvlan_clear a vf2) vf

theorem vf_reset_event_getVf (a : Adapter) (vf : Nat)
    (hv : vf < (a.vfinfo.getD []).length) :
    (ixgbe_vf_reset_event a vf).getVf vf =
      { a.getVf vf with num_vf_mc_hashes := 0,
                        vf_api := ixgbe_mbox_api_10 } := by
  unfold ixgbe_vf_reset_event
  dsimp only
  split_ifs <;>
  · rw [getVf_setVf _ _ _ (by
        simp only [vfinfo_set_vf_macvlan_clear, setVf_vfinfo_length,
                   vfinfo_clear_vmvir, vfinfo_set_vmvir, vfinfo_set_vmolr,
                   vfinfo_set_vf_vlan, vfinfo_clear_vf_vlans]
        exact hv)]
    rw [getVf_set_vf_macvlan_clear]
    rw [getVf_setVf _ _ _ (by
        simp only [vfinfo_clear_vmvir, vfinfo_set_vmvir, vfinfo_set_vmolr,
                   vfinfo_set_vf_vlan, vfinfo_clear_vf_vlans]
        exact hv)]
    simp only [getVf_clear_vmvir, getVf_set_vmvir, getVf_set_vmolr,
               getVf_set_vf_vlan, getVf_clear_vf_vlans]

theorem vf_reset_event_vfinfo_length (a : Adapter) (vf : Nat) :
    (((ixgbe_vf_reset_event a vf).vfinfo.getD []).length)
      = (a.vfinfo.getD []).length := by
  unfold ixgbe_vf_reset_event
  dsimp only
  split_ifs <;>
  · simp only [vfinfo_set_vf_macvlan_clear, setVf_vfinfo_length,
               vfinfo_clear_vmvir, vfinfo_set_vmvir, vfinfo_set_vmolr,
               vfinfo_set_vf_vlan, vfinfo_clear_vf_vlans]

theorem getVf_set_vf_mac (A : Adapter) (vf : Nat) (mac : List Nat)
    (addRet : Int) (h : vf < (A.vfinfo.getD []).length) :
    ((ixgbe_set_vf_mac A vf mac addRet).1).getVf vf =
      (if addRet ≥ 0 then { A.getVf vf with vf_mac_addresses := mac }
       else { A.getVf vf with vf_mac_addresses := zeroMac }) := by
  unfold ixgbe_set_vf_mac ixgbe_add_mac_filter
  dsimp only
  rw [getVf_setVf _ _ _ h]

theorem vfinfo_length_set_vf_mac (A : Adapter) (vf : Nat) (mac : List Nat)
    (addRet : Int) :
    (((ixgbe_set_vf_mac A vf mac addRet).1).vfinfo.getD []).length
      = (A.vfinfo.getD []).length := by
  unfold ixgbe_set_vf_mac ixgbe_add_mac_filter
  dsimp only
  exact setVf_vfinfo_length _ _ _

theorem vf_reset_msg_getVf (a : Adapter) (vf : Nat) (addRet : Int)
    (hv : vf < (a.vfinfo.getD []).length) :
    (ixgbe_vf_reset_msg a vf addRet).1.getVf vf =
      { a.getVf vf with
        num_vf_mc_hashes := 0
        vf_api := ixgbe_mbox_api_10
        clear_to_send := true
        vf_mac_addresses :=
          if ¬is_zero_ether_addr (a.getVf vf).vf_mac_addresses ∧ addRet < 0
          then zeroMac else (a.getVf vf).vf_mac_addresses } := by
  have hev := vf_reset_event_getVf a vf hv
  have hlen1 := vf_reset_event_vfinfo_length a vf
  unfold ixgbe_vf_reset_msg
  dsimp only
  rw [hev]
  dsimp only
  by_cases hz : is_zero_ether_addr (a.getVf vf).vf_mac_addresses
  · rw [if_neg (by simp [hz])]
    rw [getVf_vmecm_enable]
    rw [getVf_setVf _ _ _ (by
        simp only [vfinfo_set_vf_rx_tx, hlen1]
        exact hv)]
    rw [getVf_set_vf_rx_tx, hev]
    rw [if_neg (by simp [hz])]
  · rw [if_pos (by simp [hz])]
    rw [getVf_vmecm_enable]
    rw [getVf_setVf _ _ _ (by
        simp only [vfinfo_set_vf_rx_tx, vfinfo_length_set_vf_mac, hlen1]
        exact hv)]
    rw [getVf_set_vf_rx_tx]
    rw [getVf_set_vf_mac _ _ _ _ (by rw [hlen1]; exact hv), hev]
    by_cases hr : addRet ≥ 0
    · rw [if_pos hr, if_neg (by simp [hz]; omega)]
    · rw [if_neg hr, if_pos (by simp [hz]; omega)]

theorem hw_setVf (a : Adapter) (vf : Nat) (v : VfInfo) :
    (a.setVf vf v).hw = a.hw := rfl

theorem hw_set_vf_mac (a : Adapter) (vf : Nat) (mac : List Nat)
    (addRet : Int) :
    ((ixgbe_set_vf_mac a vf mac addRet).1).hw = a.hw := rfl

theorem hw_set_vf_macvlan_clear (a : Adapter) (vf : Nat) :
    ((ixgbe_set_vf_macvlan a vf 0 [] 0).1).hw = a.hw := rfl

theorem mcft_clear_vf_vlans (a : Adapter) (vf : Nat) :
    (ixgbe_clear_vf_vlans a vf).hw.mc_filter_type
      = a.hw.mc_filter_type := rfl

theorem mcft_update_pf_promisc (a : Adapter) (vid : Nat) :
    (ixgbe_update_pf_promisc_vlvf a vid).hw.mc_filter_type
      = a.hw.mc_filter_type := by
  unfold ixgbe_update_pf_promisc_vlvf
  split_ifs <;> rfl

theorem mcft_set_vf_vlan (a : Adapter) (add : Bool) (vid vf : Nat) :
    ((ixgbe_set_vf_vlan a add vid vf).1).hw.mc_filter_type
      = a.hw.mc_filter_type := by
  unfold ixgbe_set_vf_vlan
  dsimp only
  split_ifs <;> simp [mcft_update_pf_promisc]

theorem mcft_set_vmolr (a : Adapter) (vf : Nat) (b : Bool) :
    (ixgbe_set_vmolr a vf b).hw.mc_filter_type = a.hw.mc_filter_type := rfl

theorem mcft_set_vmvir (a : Adapter) (vid qos vf : Nat) :
    (ixgbe_set_vmvir a vid qos vf).hw.mc_filter_type
      = a.hw.mc_filter_type := rfl

theorem mcft_clear_vmvir (a : Adapter) (vf : Nat) :
    (ixgbe_clear_vmvir a vf).hw.mc_filter_type = a.hw.mc_filter_type := rfl

theorem mcft_set_vf_rx_tx (a : Adapter) (vf : Nat) :
    (ixgbe_set_vf_rx_tx a vf).hw.mc_filter_type = a.hw.mc_filter_type := by
  unfold ixgbe_set_vf_rx_tx
  dsimp only
  split_ifs <;> rfl

theorem mcft_vmecm_enable (a : Adapter) (vf : Nat) :
    (vmecm_enable a vf).hw.mc_filter_type = a.hw.mc_filter_type := rfl

theorem vlanf_set_vmolr (a : Adapter) (vf : Nat) (b : Bool) :
    (ixgbe_set_vmolr a vf b).hw.vlan_filters = a.hw.vlan_filters := rfl

theorem vlanf_set_vmvir (a : Adapter) (vid qos vf : Nat) :
    (ixgbe_set_vmvir a vid qos vf).hw.vlan_filters
      = a.hw.vlan_filters := rfl

theorem vlanf_clear_vmvir (a : Adapter) (vf : Nat) :
    (ixgbe_clear_vmvir a vf).hw.vlan_filters = a.hw.vlan_filters := rfl

theorem vlanf_set_vf_rx_tx (a : Adapter) (vf : Nat) :
    (ixgbe_set_vf_rx_tx a vf).hw.vlan_filters = a.hw.vlan_filters := by
  unfold ixgbe_set_vf_rx_tx
  dsimp only
  split_ifs <;> rfl

theorem vlanf_vmecm_enable (a : Adapter) (vf : Nat) :
    (vmecm_enable a vf).hw.vlan_filters = a.hw.vlan_filters := rfl

theorem mc_filter_type_reset_event (a : Adapter) (vf : Nat) :
    (ixgbe_vf_reset_event a vf).hw.mc_filter_type
      = a.hw.mc_filter_type := by
  unfold ixgbe_vf_reset_event
  dsimp only
  split_ifs <;>
    simp only [hw_set_vf_macvlan_clear, hw_setVf, mcft_clear_vmvir,
               mcft_set_vmvir, mcft_set_vmolr, mcft_set_vf_vlan,
               mcft_clear_vf_vlans]

theorem mc_filter_type_reset_msg (a : Adapter) (vf : Nat) (addRet : Int) :
    (ixgbe_vf_reset_msg a vf addRet).1.hw.mc_filter_type
      = a.hw.mc_filter_type := by
  unfold ixgbe_vf_reset_msg
  dsimp only
  split_ifs <;>
    simp only [mcft_vmecm_enable, hw_setVf, mcft_set_vf_rx_tx,
               hw_set_vf_mac, mc_filter_type_reset_event]

theorem vlan_filters_reset_event (a : Adapter) (vf : Nat) :
    (ixgbe_vf_reset_event a vf).hw.vlan_filters =
      ((ixgbe_set_vf_vlan (ixgbe_clear_vf_vlans a vf) true
        (a.getVf vf).pf_vlan vf).1).hw.vlan_filters := by
  unfold ixgbe_vf_reset_event
  dsimp only
  split_ifs <;>
    simp only [hw_set_vf_macvlan_clear, hw_setVf, vlanf_clear_vmvir,
               vlanf_set_vmvir, vlanf_set_vmolr]

theorem vlan_filters_reset_msg (a : Adapter) (vf : Nat) (addRet : Int) :
    (ixgbe_vf_reset_msg a vf addRet).1.hw.vlan_filters =
      ((ixgbe_set_vf_vlan (ixgbe_clear_vf_vlans a vf) true
        (a.getVf vf).pf_vlan vf).1).hw.vlan_filters := by
  unfold ixgbe_vf_reset_msg
  dsimp only
  split_ifs <;>
    simp only [vlanf_vmecm_enable, hw_setVf, vlanf_set_vf_rx_tx,
               hw_set_vf_mac, vlan_filters_reset_event]

theorem vf_reset_msg_reply (a : Adapter) (vf : Nat) (addRet : Int) :
    (ixgbe_vf_reset_msg a vf addRet).2.1 =
      (if !is_zero_ether_addr
            ((ixgbe_vf_reset_msg a vf addRet).1.getVf vf).vf_mac_addresses ∧
          ((ixgbe_vf_reset_msg a vf addRet).1.getVf vf).pf_set_mac then
         [IXGBE_VF_RESET ||| IXGBE_VT_MSGTYPE_SUCCESS,
          macWord1 ((ixgbe_vf_reset_msg a vf addRet).1.getVf
            vf).vf_mac_addresses,
          macWord2 ((ixgbe_vf_reset_msg a vf addRet).1.getVf
            vf).vf_mac_addresses,
          (ixgbe_vf_reset_msg a vf addRet).1.hw.mc_filter_type]
       else
         [IXGBE_VF_RESET ||| IXGBE_VT_MSGTYPE_FAILURE, 0, 0,
          (ixgbe_vf_reset_msg a vf addRet).1.hw.mc_filter_type]) := by
  unfold ixgbe_vf_reset_msg
  dsimp only

theorem mem_set_vfta_add (l : List (Nat × Nat)) (vid p : Nat)
    (x : Nat × Nat) :
    x ∈ (set_vfta l vid p true).1 ↔ x ∈ l ∨ x = (p, vid) := by
  unfold set_vfta
  dsimp only
  rw [if_pos rfl]
  split_ifs with h
  · constructor
    · exact Or.inl
    · rintro (hx | rfl)
      · exact hx
      · exact List.elem_iff.mp h
  · simp [List.mem_cons, or_comm]

theorem mem_vlan_after_clear_add (a : Adapter) (vf pv vid : Nat) :
    ((vf, vid) ∈ ((ixgbe_set_vf_vlan (ixgbe_clear_vf_vlans a vf) true pv
        vf).1).hw.vlan_filters)
      ↔ vid = pv := by
  unfold ixgbe_set_vf_vlan ixgbe_clear_vf_vlans
  dsimp only
  rw [if_pos (by rfl)]
  dsimp only
  rw [mem_set_vfta_add]
  constructor
  · rintro (hx | hx)
    · revert hx
      split_ifs with hact
      · rw [mem_set_vfta_add]
        rintro (hm | heq)
        · exact absurd (List.mem_filter.mp hm).2 (by simp)
        · exact congrArg Prod.snd heq
      · intro hm
        exact absurd (List.mem_filter.mp hm).2 (by simp)
    · exact congrArg Prod.snd hx
  · rintro rfl
    exact Or.inr rfl

/-- C4: processing a RESET mailbox message sets the VF's clear_to_send
flag, resets its negotiated api version to the base 1.0 level, clears
its multicast count and its own VLAN filters (only the PF-assigned VLAN
remains in the VF's pool), and replies with SUCCESS plus the stored MAC
when the PF pinned one (and the backend filter re-add succeeds), or
with FAILURE when no PF-pinned MAC exists. -/
theorem vf_reset_msg_handshake (a : Adapter) (vf : Nat) (addRet : Int)
    (hv : vf < (a.vfinfo.getD []).length) :
    ((ixgbe_vf_reset_msg a vf addRet).1.getVf vf).clear_to_send = true ∧
    ((ixgbe_vf_reset_msg a vf addRet).1.getVf vf).vf_api
      = ixgbe_mbox_api_10 ∧
    ((ixgbe_vf_reset_msg a vf addRet).1.getVf vf).num_vf_mc_hashes = 0 ∧
    (∀ vid, (vf, vid) ∈ (ixgbe_vf_reset_msg a vf addRet).1.hw.vlan_filters ↔
            vid = (a.getVf vf).pf_vlan) ∧
    ((a.getVf vf).pf_set_mac = true →
     is_zero_ether_addr (a.getVf vf).vf_mac_addresses = false →
     0 ≤ addRet →
     (ixgbe_vf_reset_msg a vf addRet).2.1 =
       [IXGBE_VF_RESET ||| IXGBE_VT_MSGTYPE_SUCCESS,
        macWord1 (a.getVf vf).vf_mac_addresses,
        macWord2 (a.getVf vf).vf_mac_addresses,
        a.hw.mc_filter_type]) ∧
    ((a.getVf vf).pf_set_mac = false →
     (ixgbe_vf_reset_msg a vf addRet).2.1 =
       [IXGBE_VF_RESET ||| IXGBE_VT_MSGTYPE_FAILURE, 0, 0,
        a.hw.mc_filter_type]) := by
  have hg := vf_reset_msg_getVf a vf addRet hv
  refine ⟨by rw [hg], by rw [hg], by rw [hg], ?_, ?_, ?_⟩
  · intro vid
    rw [vlan_filters_reset_msg]
    exact mem_vlan_after_clear_add a vf _ vid
  · intro h1 h2 h3
    have hmac : ((ixgbe_vf_reset_msg a vf addRet).1.getVf
        vf).vf_mac_addresses = (a.getVf vf).vf_mac_addresses := by
      rw [hg]
      dsimp only
      rw [if_neg (by simp [h2]; omega)]
    have hpf : ((ixgbe_vf_reset_msg a vf addRet).1.getVf vf).pf_set_mac
        = (a.getVf vf).pf_set_mac := by
      rw [hg]
    rw [vf_reset_msg_reply, hmac, hpf, mc_filter_type_reset_msg]
    rw [if_pos (by simp [h2, h1])]
  · intro h1
    have hpf : ((ixgbe_vf_reset_msg a vf addRet).1.getVf vf).pf_set_mac
        = (a.getVf vf).pf_set_mac := by
      rw [hg]
    rw [vf_reset_msg_reply, hpf, mc_filter_type_reset_msg]
    rw [if_neg (by simp [h1])]

/-- Witness for C4: SUCCESS plus MAC on an adapter with a pinned MAC,
FAILURE on one without. -/
theorem vf_reset_msg_handshake_witness :
    (0 < (pinAdapter.vfinfo.getD []).length ∧
     (pinAdapter.getVf 0).pf_set_mac = true ∧
     is_zero_ether_addr (pinAdapter.getVf 0).vf_mac_addresses = false ∧
     (0 : Int) ≤ 5 ∧
     (ixgbe_vf_reset_msg pinAdapter 0 5).2.1 =
       [IXGBE_VF_RESET ||| IXGBE_VT_MSGTYPE_SUCCESS,
        macWord1 (pinAdapter.getVf 0).vf_mac_addresses,
        macWord2 (pinAdapter.getVf 0).vf_mac_addresses,
        pinAdapter.hw.mc_filter_type] ∧
     ((ixgbe_vf_reset_msg pinAdapter 0 5).1.getVf 0).clear_to_send
       = true) ∧
    ((testAdapter.getVf 0).pf_set_mac = false ∧
     (ixgbe_vf_reset_msg testAdapter 0 5).2.1 =
       [IXGBE_VF_RESET ||| IXGBE_VT_MSGTYPE_FAILURE, 0, 0,
        testAdapter.hw.mc_filter_type]) :=
  ⟨⟨by decide, by decide, by decide, by decide,
    (vf_reset_msg_handshake pinAdapter 0 5 (by decide)).2.2.2.2.1
      (by decide) (by decide) (by decide),
    (vf_reset_msg_handshake pinAdapter 0 5 (by decide)).1⟩,
   ⟨by decide,
    (vf_reset_msg_handshake testAdapter 0 5 (by decide)).2.2.2.2.2
      (by decide)⟩⟩

/-- Counterexample to C3 as stated: a SET_LPE request above the maximum
jumbo frame size passes the clear_to_send gate, is decoded and
dispatched, yet terminates with -EINVAL and no response written. -/
theorem rcv_msg_response_cex :
    (ctsAdapter.getVf 0).clear_to_send = true ∧
    ((mkMsg [IXGBE_VF_SET_LPE, 9729]).getD 0 0) &&&
      (IXGBE_VT_MSGTYPE_SUCCESS ||| IXGBE_VT_MSGTYPE_FAILURE) = 0 ∧
    (mkMsg [IXGBE_VF_SET_LPE, 9729]).getD 0 0 ≠ IXGBE_VF_RESET ∧
    (ixgbe_rcv_msg_from_vf ctsAdapter 0
      (mkMsg [IXGBE_VF_SET_LPE, 9729]) 0).writes = [] := by decide

theorem getD0_set (l : List Nat) (i : Nat) (v : Nat) (h : i ≠ 0) :
    (l.set i v).getD 0 0 = l.getD 0 0 := by
  cases l with
  | nil => simp
  | cons x xs =>
    cases i with
    | zero => exact absurd rfl h
    | succ n => simp [List.set]

theorem getD_set_zero (l : List Nat) (v : Nat) (h : 0 < l.length) :
    (l.set 0 v).getD 0 0 = v := by
  cases l with
  | nil => simp at h
  | cons x xs => rfl

theorem foldl_set_shift (g : Nat → Nat) (l : List Nat) :
    ∀ m : List Nat,
      ((l.foldl (fun acc i => acc.set (1 + i) (g i)) m).getD 0 0
        = m.getD 0 0) ∧
      (l.foldl (fun acc i => acc.set (1 + i) (g i)) m).length
        = m.length := by
  induction l with
  | nil => intro m; exact ⟨rfl, rfl⟩
  | cons x xs ih =>
    intro m
    constructor
    · rw [List.foldl_cons, (ih _).1, getD0_set _ _ _ (by omega)]
    · rw [List.foldl_cons, (ih _).2, List.length_set]

theorem msg_shape_get_vf_queues (a : Adapter) (msg : List Nat) (vf : Nat) :
    (ixgbe_get_vf_queues a msg vf).2.1.getD 0 0 = msg.getD 0 0 ∧
    (ixgbe_get_vf_queues a msg vf).2.1.length = msg.length := by
  unfold ixgbe_get_vf_queues
  dsimp only
  split_ifs <;>
    exact ⟨by first
             | rfl
             | (repeat rw [getD0_set _ _ _ (by decide)]),
           by simp [List.length_set]⟩

theorem msg_shape_get_vf_reta (a : Adapter) (msg : List Nat) (vf : Nat) :
    (ixgbe_get_vf_reta a msg vf).2.1.getD 0 0 = msg.getD 0 0 ∧
    (ixgbe_get_vf_reta a msg vf).2.1.length = msg.length := by
  unfold ixgbe_get_vf_reta
  dsimp only
  split_ifs <;>
    first
    | exact ⟨rfl, rfl⟩
    | exact foldl_set_shift _ _ msg

theorem msg_shape_get_vf_rss_key (a : Adapter) (msg : List Nat)
    (vf : Nat) :
    (ixgbe_get_vf_rss_key a msg vf).2.1.getD 0 0 = msg.getD 0 0 ∧
    (ixgbe_get_vf_rss_key a msg vf).2.1.length = msg.length := by
  unfold ixgbe_get_vf_rss_key
  dsimp only
  split_ifs <;>
    first
    | exact ⟨rfl, rfl⟩
    | exact foldl_set_shift _ _ msg

theorem msg_shape_update_xcast (a : Adapter) (msg : List Nat) (vf : Nat) :
    (ixgbe_update_vf_xcast_mode a msg vf).2.1.getD 0 0 = msg.getD 0 0 ∧
    (ixgbe_update_vf_xcast_mode a msg vf).2.1.length = msg.length := by
  unfold ixgbe_update_vf_xcast_mode
  dsimp only
  generalize (if msg.getD 1 0 > IXGBEVF_XCAST_MODE_MULTI ∧
      ¬(a.getVf vf).trusted = true then IXGBEVF_XCAST_MODE_MULTI
    else msg.getD 1 0) = md
  by_cases h1 : (a.getVf vf).vf_api = ixgbe_mbox_api_12 ∧
      msg.getD 1 0 = IXGBEVF_XCAST_MODE_PROMISC
  · rw [if_pos h1]
    exact ⟨rfl, rfl⟩
  rw [if_neg h1]
  by_cases h2 : ¬((a.getVf vf).vf_api = ixgbe_mbox_api_12 ∨
      (a.getVf vf).vf_api = ixgbe_mbox_api_13)
  · rw [if_pos h2]
    exact ⟨rfl, rfl⟩
  rw [if_neg h2]
  by_cases h3 : (a.getVf vf).xcast_mode = md
  · rw [if_pos h3]
    exact ⟨getD0_set _ _ _ (by decide), List.length_set _ _ _⟩
  rw [if_neg h3]
  by_cases h4 : md = IXGBEVF_XCAST_MODE_NONE
  · rw [if_pos h4]
    exact ⟨getD0_set _ _ _ (by decide), List.length_set _ _ _⟩
  rw [if_neg h4]
  by_cases h5 : md = IXGBEVF_XCAST_MODE_MULTI
  · rw [if_pos h5]
    exact ⟨getD0_set _ _ _ (by decide), List.length_set _ _ _⟩
  rw [if_neg h5]
  by_cases h6 : md = IXGBEVF_XCAST_MODE_ALLMULTI
  · rw [if_pos h6]
    exact ⟨getD0_set _ _ _ (by decide), List.length_set _ _ _⟩
  rw [if_neg h6]
  by_cases h7 : md = IXGBEVF_XCAST_MODE_PROMISC
  · rw [if_pos h7]
    by_cases h8 : a.hw.mac_type ≤ ixgbe_mac_82599EB
    · rw [if_pos h8]
      exact ⟨rfl, rfl⟩
    rw [if_neg h8]
    by_cases h9 : a.hw.fctrl &&& IXGBE_FCTRL_UPE = 0
    · rw [if_pos h9]
      exact ⟨rfl, rfl⟩
    rw [if_neg h9]
    exact ⟨getD0_set _ _ _ (by decide), List.length_set _ _ _⟩
  rw [if_neg h7]
  exact ⟨rfl, rfl⟩

theorem msg_shape_get_link_state (a : Adapter) (msg : List Nat)
    (vf : Nat) :
    (ixgbe_get_vf_link_state a msg vf).2.1.getD 0 0 = msg.getD 0 0 ∧
    (ixgbe_get_vf_link_state a msg vf).2.1.length = msg.length := by
  unfold ixgbe_get_vf_link_state
  dsimp only
  split_ifs <;>
    exact ⟨by first
             | rfl
             | (repeat rw [getD0_set _ _ _ (by decide)]),
           by simp [List.length_set]⟩

set_option maxHeartbeats 1000000 in
theorem dispatch_msg_shape (a : Adapter) (vf : Nat) (msg : List Nat)
    (addRet : Int) :
    (ixgbe_rcv_dispatch a vf msg addRet).2.1.getD 0 0 = msg.getD 0 0 ∧
    (ixgbe_rcv_dispatch a vf msg addRet).2.1.length = msg.length := by
  unfold ixgbe_rcv_dispatch
  dsimp only
  split_ifs
  · exact ⟨rfl, rfl⟩
  · exact ⟨rfl, rfl⟩
  · exact ⟨rfl, rfl⟩
  · exact ⟨rfl, rfl⟩
  · exact ⟨rfl, rfl⟩
  · exact ⟨rfl, rfl⟩
  · exact msg_shape_get_vf_queues a msg vf
  · exact msg_shape_get_vf_reta a msg vf
  · exact msg_shape_get_vf_rss_key a msg vf
  · exact msg_shape_update_xcast a msg vf
  · exact msg_shape_get_link_state a msg vf
  · exact ⟨rfl, rfl⟩

theorem resp_facts (m : List Nat) (rv : Int) (h0 : 0 < m.length)
    (hun : (m.getD 0 0) &&&
      (IXGBE_VT_MSGTYPE_SUCCESS ||| IXGBE_VT_MSGTYPE_FAILURE) = 0) :
    ((m.set 0 ((m.getD 0 0) |||
        (if rv ≠ 0 then IXGBE_VT_MSGTYPE_FAILURE
         else IXGBE_VT_MSGTYPE_SUCCESS) ||| IXGBE_VT_MSGTYPE_CTS)).getD 0 0)
      &&& IXGBE_VT_MSGTYPE_CTS ≠ 0 ∧
    (((m.set 0 ((m.getD 0 0) |||
        (if rv ≠ 0 then IXGBE_VT_MSGTYPE_FAILURE
         else IXGBE_VT_MSGTYPE_SUCCESS) ||| IXGBE_VT_MSGTYPE_CTS)).getD 0 0)
      &&& IXGBE_VT_MSGTYPE_SUCCESS ≠ 0 ↔ rv = 0) ∧
    (((m.set 0 ((m.getD 0 0) |||
        (if rv ≠ 0 then IXGBE_VT_MSGTYPE_FAILURE
         else IXGBE_VT_MSGTYPE_SUCCESS) ||| IXGBE_VT_MSGTYPE_CTS)).getD 0 0)
      &&& IXGBE_VT_MSGTYPE_FAILURE ≠ 0 ↔ rv ≠ 0) := by
  have hsf := lor_parts_eq_zero _ _
    ((Nat.and_or_distrib_left _ _ _) ▸ hun)
  rw [getD_set_zero _ _ h0]
  by_cases hrv : rv = 0
  · subst hrv
    rw [if_neg (by simp)]
    refine ⟨?_, ?_, ?_⟩
    · rw [lor_land_self]
      decide
    · rw [Nat.and_distrib_right, Nat.and_distrib_right, hsf.1]
      exact ⟨fun _ => rfl, fun _ => by decide⟩
    · rw [Nat.and_distrib_right, Nat.and_distrib_right, hsf.2]
      exact ⟨fun h => absurd (by decide) h, fun h => absurd rfl h⟩
  · rw [if_pos hrv]
    refine ⟨?_, ?_, ?_⟩
    · rw [lor_land_self]
      decide
    · rw [Nat.and_distrib_right, Nat.and_distrib_right, hsf.1]
      exact ⟨fun h => absurd (by decide) h, fun h => absurd h hrv⟩
    · rw [Nat.and_distrib_right, Nat.and_distrib_right, hsf.2]
      exact ⟨fun _ => hrv, fun _ => by decide⟩

/-- C3 (amended): every decoded, not-already-processed message that
passes the clear_to_send gate, except a SET_LPE request above the
maximum jumbo frame size (which is dropped with -EINVAL and no reply),
gets exactly one response written back, tagged CTS, carrying SUCCESS
exactly when the handler reported success and FAILURE exactly when it
reported a failure. -/
theorem rcv_msg_single_response (a : Adapter) (vf : Nat) (msg : List Nat)
    (addRet : Int)
    (hlen : msg.length = IXGBE_VFMAILBOX_SIZE)
    (hun : (msg.getD 0 0) &&&
      (IXGBE_VT_MSGTYPE_SUCCESS ||| IXGBE_VT_MSGTYPE_FAILURE) = 0)
    (hcts : (a.getVf vf).clear_to_send = true)
    (hnr : msg.getD 0 0 ≠ IXGBE_VF_RESET)
    (hlpe : ¬((msg.getD 0 0) &&& 0xFFFF = IXGBE_VF_SET_LPE ∧
              msg.getD 1 0 > IXGBE_MAX_JUMBO_FRAME_SIZE)) :
    (ixgbe_rcv_msg_from_vf a vf msg addRet).writes.length = 1 ∧
    ((((ixgbe_rcv_msg_from_vf a vf msg addRet).writes.getD 0 []).getD 0 0)
      &&& IXGBE_VT_MSGTYPE_CTS ≠ 0) ∧
    ((((ixgbe_rcv_msg_from_vf a vf msg addRet).writes.getD 0 []).getD 0 0)
      &&& IXGBE_VT_MSGTYPE_SUCCESS ≠ 0 ↔
      (ixgbe_rcv_msg_from_vf a vf msg addRet).retval = 0) ∧
    ((((ixgbe_rcv_msg_from_vf a vf msg addRet).writes.getD 0 []).getD 0 0)
      &&& IXGBE_VT_MSGTYPE_FAILURE ≠ 0 ↔
      (ixgbe_rcv_msg_from_vf a vf msg addRet).retval ≠ 0) := by
  have hs := dispatch_msg_shape a vf msg addRet
  have h0 : 0 < (ixgbe_rcv_dispatch a vf msg addRet).2.1.length := by
    rw [hs.2, hlen]
    decide
  have hu : ((ixgbe_rcv_dispatch a vf msg addRet).2.1.getD 0 0) &&&
      (IXGBE_VT_MSGTYPE_SUCCESS ||| IXGBE_VT_MSGTYPE_FAILURE) = 0 := by
    rw [hs.1]
    exact hun
  have hf := resp_facts _ ((ixgbe_rcv_dispatch a vf msg addRet).2.2) h0 hu
  unfold ixgbe_rcv_msg_from_vf
  rw [if_neg (not_ne_iff.mpr hun), if_neg hnr]
  rw [if_neg (by simp [hcts]), if_neg hlpe]
  exact ⟨rfl, hf.1, hf.2.1, hf.2.2⟩

/-- Witness for C3 at a concrete API_NEGOTIATE request. -/
theorem rcv_msg_single_response_witness :
    ((mkMsg [IXGBE_VF_API_NEGOTIATE, 2]).length = IXGBE_VFMAILBOX_SIZE ∧
     ((mkMsg [IXGBE_VF_API_NEGOTIATE, 2]).getD 0 0) &&&
       (IXGBE_VT_MSGTYPE_SUCCESS ||| IXGBE_VT_MSGTYPE_FAILURE) = 0 ∧
     (ctsAdapter.getVf 0).clear_to_send = true ∧
     (mkMsg [IXGBE_VF_API_NEGOTIATE, 2]).getD 0 0 ≠ IXGBE_VF_RESET) ∧
    ((ixgbe_rcv_msg_from_vf ctsAdapter 0
        (mkMsg [IXGBE_VF_API_NEGOTIATE, 2]) 0).writes.length = 1 ∧
     ((((ixgbe_rcv_msg_from_vf ctsAdapter 0
         (mkMsg [IXGBE_VF_API_NEGOTIATE, 2]) 0).writes.getD 0 []).getD 0 0)
       &&& IXGBE_VT_MSGTYPE_CTS ≠ 0) ∧
     ((((ixgbe_rcv_msg_from_vf ctsAdapter 0
         (mkMsg [IXGBE_VF_API_NEGOTIATE, 2]) 0).writes.getD 0 []).getD 0 0)
       &&& IXGBE_VT_MSGTYPE_SUCCESS ≠ 0 ↔
       (ixgbe_rcv_msg_from_vf ctsAdapter 0
         (mkMsg [IXGBE_VF_API_NEGOTIATE, 2]) 0).retval = 0) ∧
     ((((ixgbe_rcv_msg_from_vf ctsAdapter 0
         (mkMsg [IXGBE_VF_API_NEGOTIATE, 2]) 0).writes.getD 0 []).getD 0 0)
       &&& IXGBE_VT_MSGTYPE_FAILURE ≠ 0 ↔
       (ixgbe_rcv_msg_from_vf ctsAdapter 0
         (mkMsg [IXGBE_VF_API_NEGOTIATE, 2]) 0).retval ≠ 0)) :=
  ⟨⟨by decide, by decide, by decide, by decide⟩,
   rcv_msg_single_response ctsAdapter 0 (mkMsg [IXGBE_VF_API_NEGOTIATE, 2])
     0 (by decide) (by decide) (by decide) (by decide) (by decide)⟩
